import Mathlib

/-!
# MySensors: Fujitsu heat pump IR encoder

A shallow embedding of `libraries/HeatpumpIR/FujitsuHeatpumpIR.cpp`.

* A `byte` is a natural number below 256; every narrowing store of the source
  is an explicit `% 256` (`toByte`, `intToByte`).
* The `IRSender` is modelled by the list of emitter calls issued so far.
* The macro constants come from `HeatpumpIR.h` and `FujitsuHeatpumpIR.h`; they
  are the fields of `Consts`, under the names the source uses.
-/

namespace FujitsuHeatpumpIR

/-! ## Constants of the headers -/

/-- The macro constants that `FujitsuHeatpumpIR.cpp` uses. The first group are the
vendor-independent command values of `HeatpumpIR.h`, the second group the Fujitsu
protocol codes and timings of `FujitsuHeatpumpIR.h`. -/
structure Consts where
  POWER_OFF : Nat
  MODE_AUTO : Nat
  MODE_HEAT : Nat
  MODE_COOL : Nat
  MODE_DRY : Nat
  MODE_FAN : Nat
  FAN_AUTO : Nat
  FAN_1 : Nat
  FAN_2 : Nat
  FAN_3 : Nat
  FAN_4 : Nat
  VDIR_SWING : Nat
  HDIR_SWING : Nat
  FUJITSU_AIRCON1_HDR_MARK : Nat
  FUJITSU_AIRCON1_HDR_SPACE : Nat
  FUJITSU_AIRCON1_BIT_MARK : Nat
  FUJITSU_AIRCON1_ONE_SPACE : Nat
  FUJITSU_AIRCON1_ZERO_SPACE : Nat
  FUJITSU_AIRCON1_MODE_AUTO : Nat
  FUJITSU_AIRCON1_MODE_HEAT : Nat
  FUJITSU_AIRCON1_MODE_COOL : Nat
  FUJITSU_AIRCON1_MODE_DRY : Nat
  FUJITSU_AIRCON1_MODE_FAN : Nat
  FUJITSU_AIRCON1_MODE_OFF : Nat
  FUJITSU_AIRCON1_FAN_AUTO : Nat
  FUJITSU_AIRCON1_FAN1 : Nat
  FUJITSU_AIRCON1_FAN2 : Nat
  FUJITSU_AIRCON1_FAN3 : Nat
  FUJITSU_AIRCON1_FAN4 : Nat
  FUJITSU_AIRCON1_VDIR_MANUAL : Nat
  FUJITSU_AIRCON1_VDIR_SWING : Nat
  FUJITSU_AIRCON1_HDIR_MANUAL : Nat
  FUJITSU_AIRCON1_HDIR_SWING : Nat
  FUJITSU_AIRCON1_ECO_OFF : Nat
  FUJITSU_AIRCON1_ECO_ON : Nat
  deriving DecidableEq, Repr

/-! ## Bytes -/

/-- Store of a non-negative `int` value into a `byte` variable. -/
def toByte (n : Nat) : Nat := n % 256

/-- Store of an `int` expression into a `byte` variable: the value modulo 256. -/
def intToByte (i : Int) : Nat := (i % 256).toNat

/-! ## The emitter -/

/-- One call on the `IRSender`. -/
inductive IRCall where
  | setFrequency (khz : Nat)
  | mark (us : Nat)
  | space (us : Nat)
  | sendIRByte (b bitMark zeroSpace oneSpace : Nat)
  deriving DecidableEq, Repr

/-- `FujitsuHeatpumpIR::sendFujitsuMsg`: frequency, header, one `sendIRByte` per
message byte for `i = 0 .. msgSize-1`, end mark. `IR` is the call log so far. -/
def sendFujitsuMsg (k : Consts) (IR : List IRCall) (msgSize : Nat) (msg : List Nat) :
    List IRCall :=
  let IR := IR ++ [IRCall.setFrequency 40]
  let IR := IR ++ [IRCall.mark k.FUJITSU_AIRCON1_HDR_MARK]
  let IR := IR ++ [IRCall.space k.FUJITSU_AIRCON1_HDR_SPACE]
  let IR := (List.range msgSize).foldl
    (fun IR i => IR ++ [IRCall.sendIRByte (msg.getD i 0) k.FUJITSU_AIRCON1_BIT_MARK
      k.FUJITSU_AIRCON1_ZERO_SPACE k.FUJITSU_AIRCON1_ONE_SPACE]) IR
  let IR := IR ++ [IRCall.mark k.FUJITSU_AIRCON1_BIT_MARK]
  IR ++ [IRCall.space 0]

/-! ## Frame construction -/

/-- The local array `FujitsuTemplate` of `sendFujitsu` as initialised. -/
def FujitsuTemplate : List Nat :=
  [0x14, 0x63, 0x00, 0x10, 0x10, 0xFE, 0x09, 0x30, 0x80, 0x04, 0x00, 0x00, 0x00, 0x00, 0x20, 0x00]

/-- The local array `OFF_msg` of `sendFujitsu`. -/
def OFF_msg : List Nat := [0x14, 0x63, 0x00, 0x10, 0x10, 0x02, 0xFD]

/-- The checksum loop of `sendFujitsu`: `for (i=0; i<15; i++) checksum += t[i]` on a
`byte` accumulator that starts at 0 and wraps at each addition. -/
def checksumLoop (t : List Nat) : Nat :=
  (List.range 15).foldl (fun checksum i => toByte (checksum + t.getD i 0)) 0

/-- The expression `(temperature - 16) << 4 | 0x01` of `sendFujitsu`, evaluated in
`int` and stored into the `byte` at index 8. -/
def temperatureByte (temperature : Nat) : Nat :=
  intToByte (Int.lor (((temperature : Int) - 16) <<< (4 : Int)) 0x01)

/-- The array `FujitsuTemplate` of `sendFujitsu` after all its stores, checksum
included. The arguments are the `byte` parameters of `sendFujitsu`. -/
def filledTemplate (operatingMode fanSpeed temperature swingV swingH ecoMode : Nat) :
    List Nat :=
  let t := FujitsuTemplate
  let t := t.set 9 operatingMode
  let t := t.set 14 ecoMode
  let t := t.set 8 (temperatureByte temperature)
  let t := t.set 10 (toByte (fanSpeed + swingV + swingH))
  let checksum := checksumLoop t
  t.set 15 (intToByte (0x9E - (checksum : Int)))

/-- The message that `sendFujitsu` hands to `sendFujitsuMsg`: `OFF_msg` when the
operating mode is the OFF marker, the filled template otherwise. -/
def sendFujitsuFrame (k : Consts)
    (operatingMode fanSpeed temperature swingV swingH ecoMode : Nat) : List Nat :=
  if operatingMode = k.FUJITSU_AIRCON1_MODE_OFF then OFF_msg
  else filledTemplate operatingMode fanSpeed temperature swingV swingH ecoMode

/-- `FujitsuHeatpumpIR::sendFujitsu`: the chosen message goes to `sendFujitsuMsg`
with its `sizeof` as the size. -/
def sendFujitsu (k : Consts) (IR : List IRCall)
    (operatingMode fanSpeed temperature swingV swingH ecoMode : Nat) : List IRCall :=
  let msg := sendFujitsuFrame k operatingMode fanSpeed temperature swingV swingH ecoMode
  sendFujitsuMsg k IR msg.length msg

/-! ## Command normalisation -/

/-- The normalised values that `send` passes to `sendFujitsu`. -/
structure Normalized where
  operatingMode : Nat
  fanSpeed : Nat
  temperature : Nat
  swingV : Nat
  swingH : Nat
  ecoMode : Nat
  deriving DecidableEq, Repr

/-- The body of the eight-argument `FujitsuHeatpumpIR::send` up to the call of
`sendFujitsu`: defaults first, then the `if` / `switch` statements in source order.
A `switch` takes the first matching `case`; without a match the default stays. -/
def normalize (k : Consts)
    (powerModeCmd operatingModeCmd fanSpeedCmd temperatureCmd swingVCmd swingHCmd : Nat)
    (ecoModeCmd : Bool) : Normalized :=
  let operatingMode := toByte k.FUJITSU_AIRCON1_MODE_HEAT
  let fanSpeed := toByte k.FUJITSU_AIRCON1_FAN_AUTO
  let temperature := 23
  let swingV := toByte k.FUJITSU_AIRCON1_VDIR_MANUAL
  let swingH := toByte k.FUJITSU_AIRCON1_HDIR_MANUAL
  let ecoMode := toByte k.FUJITSU_AIRCON1_ECO_OFF
  let operatingMode :=
    if powerModeCmd = k.POWER_OFF then toByte k.FUJITSU_AIRCON1_MODE_OFF
    else if operatingModeCmd = k.MODE_AUTO then toByte k.FUJITSU_AIRCON1_MODE_AUTO
    else if operatingModeCmd = k.MODE_HEAT then toByte k.FUJITSU_AIRCON1_MODE_HEAT
    else if operatingModeCmd = k.MODE_COOL then toByte k.FUJITSU_AIRCON1_MODE_COOL
    else if operatingModeCmd = k.MODE_DRY then toByte k.FUJITSU_AIRCON1_MODE_DRY
    else if operatingModeCmd = k.MODE_FAN then toByte k.FUJITSU_AIRCON1_MODE_FAN
    else operatingMode
  let fanSpeed :=
    if fanSpeedCmd = k.FAN_AUTO then toByte k.FUJITSU_AIRCON1_FAN_AUTO
    else if fanSpeedCmd = k.FAN_1 then toByte k.FUJITSU_AIRCON1_FAN1
    else if fanSpeedCmd = k.FAN_2 then toByte k.FUJITSU_AIRCON1_FAN2
    else if fanSpeedCmd = k.FAN_3 then toByte k.FUJITSU_AIRCON1_FAN3
    else if fanSpeedCmd = k.FAN_4 then toByte k.FUJITSU_AIRCON1_FAN4
    else fanSpeed
  let temperature :=
    if temperatureCmd > 15 ∧ temperatureCmd < 31 then temperatureCmd else temperature
  let swingV :=
    if swingVCmd = k.VDIR_SWING then toByte k.FUJITSU_AIRCON1_VDIR_SWING else swingV
  let swingH :=
    if swingHCmd = k.HDIR_SWING then toByte k.FUJITSU_AIRCON1_HDIR_SWING else swingH
  let ecoMode := if ecoModeCmd then toByte k.FUJITSU_AIRCON1_ECO_ON else ecoMode
  { operatingMode := operatingMode, fanSpeed := fanSpeed, temperature := temperature,
    swingV := swingV, swingH := swingH, ecoMode := ecoMode }

/-- The eight-argument `FujitsuHeatpumpIR::send`. -/
def send (k : Consts) (IR : List IRCall)
    (powerModeCmd operatingModeCmd fanSpeedCmd temperatureCmd swingVCmd swingHCmd : Nat)
    (ecoModeCmd : Bool) : List IRCall :=
  let n := normalize k powerModeCmd operatingModeCmd fanSpeedCmd temperatureCmd
    swingVCmd swingHCmd ecoModeCmd
  sendFujitsu k IR n.operatingMode n.fanSpeed n.temperature n.swingV n.swingH n.ecoMode

/-- The message that `send` hands, through `sendFujitsu`, to `sendFujitsuMsg`. -/
def sendFrame (k : Consts)
    (powerModeCmd operatingModeCmd fanSpeedCmd temperatureCmd swingVCmd swingHCmd : Nat)
    (ecoModeCmd : Bool) : List Nat :=
  let n := normalize k powerModeCmd operatingModeCmd fanSpeedCmd temperatureCmd
    swingVCmd swingHCmd ecoModeCmd
  sendFujitsuFrame k n.operatingMode n.fanSpeed n.temperature n.swingV n.swingH n.ecoMode

/-! ## Auxiliary frames -/

/-- `FujitsuHeatpumpIR::sendFujitsuHiPower`. -/
def sendFujitsuHiPower (k : Consts) (IR : List IRCall) : List IRCall :=
  let HiPower_msg := [0x14, 0x63, 0x00, 0x10, 0x10, 0x39, 0xC6]
  sendFujitsuMsg k IR HiPower_msg.length HiPower_msg

/-- `FujitsuHeatpumpIR::sendFujitsuFilterClean`. -/
def sendFujitsuFilterClean (k : Consts) (IR : List IRCall) : List IRCall :=
  let FilterClean_msg := [0x14, 0x63, 0x00, 0x10, 0x10, 0x02, 0xFD]
  sendFujitsuMsg k IR FilterClean_msg.length FilterClean_msg

/-- `FujitsuHeatpumpIR::sendFujitsuSuperQuiet`. -/
def sendFujitsuSuperQuiet (k : Consts) (IR : List IRCall) : List IRCall :=
  let SuperQuiet_msg := [0x14, 0x63, 0x00, 0x10, 0x10, 0x02, 0xFD]
  sendFujitsuMsg k IR SuperQuiet_msg.length SuperQuiet_msg

/-- `FujitsuHeatpumpIR::sendFujitsuTestRun`. -/
def sendFujitsuTestRun (k : Consts) (IR : List IRCall) : List IRCall :=
  let TestRun_msg := [0x14, 0x63, 0x00, 0x10, 0x10, 0x02, 0xFD]
  sendFujitsuMsg k IR TestRun_msg.length TestRun_msg

/-! ## Assumptions on the header constants -/

/-- Modelled from the spec: `FujitsuHeatpumpIR.h` is not among the sources. The spec
calls every `FUJITSU_AIRCON1_*` protocol code a byte code that is written into one
template byte, so each code is below 256. -/
def Consts.codesAreBytes (k : Consts) : Prop :=
  k.FUJITSU_AIRCON1_MODE_AUTO < 256 ∧ k.FUJITSU_AIRCON1_MODE_HEAT < 256 ∧
  k.FUJITSU_AIRCON1_MODE_COOL < 256 ∧ k.FUJITSU_AIRCON1_MODE_DRY < 256 ∧
  k.FUJITSU_AIRCON1_MODE_FAN < 256 ∧ k.FUJITSU_AIRCON1_MODE_OFF < 256 ∧
  k.FUJITSU_AIRCON1_FAN_AUTO < 256 ∧ k.FUJITSU_AIRCON1_FAN1 < 256 ∧
  k.FUJITSU_AIRCON1_FAN2 < 256 ∧ k.FUJITSU_AIRCON1_FAN3 < 256 ∧
  k.FUJITSU_AIRCON1_FAN4 < 256 ∧
  k.FUJITSU_AIRCON1_VDIR_MANUAL < 256 ∧ k.FUJITSU_AIRCON1_VDIR_SWING < 256 ∧
  k.FUJITSU_AIRCON1_HDIR_MANUAL < 256 ∧ k.FUJITSU_AIRCON1_HDIR_SWING < 256 ∧
  k.FUJITSU_AIRCON1_ECO_OFF < 256 ∧ k.FUJITSU_AIRCON1_ECO_ON < 256

instance (k : Consts) : Decidable k.codesAreBytes := by
  unfold Consts.codesAreBytes; infer_instance

/-- Modelled from the spec: `FujitsuHeatpumpIR.h` is not among the sources. The spec
calls `FUJITSU_AIRCON1_MODE_OFF` an internal OFF marker that selects the short OFF
frame, so it is none of the five operating mode codes. -/
def Consts.offMarkerApart (k : Consts) : Prop :=
  k.FUJITSU_AIRCON1_MODE_AUTO ≠ k.FUJITSU_AIRCON1_MODE_OFF ∧
  k.FUJITSU_AIRCON1_MODE_HEAT ≠ k.FUJITSU_AIRCON1_MODE_OFF ∧
  k.FUJITSU_AIRCON1_MODE_COOL ≠ k.FUJITSU_AIRCON1_MODE_OFF ∧
  k.FUJITSU_AIRCON1_MODE_DRY ≠ k.FUJITSU_AIRCON1_MODE_OFF ∧
  k.FUJITSU_AIRCON1_MODE_FAN ≠ k.FUJITSU_AIRCON1_MODE_OFF

instance (k : Consts) : Decidable k.offMarkerApart := by
  unfold Consts.offMarkerApart; infer_instance

/-- Modelled from the spec: the values of the fan and swing codes of
`FujitsuHeatpumpIR.h` are not among the sources. The spec says that fan speed, vertical
swing and horizontal swing occupy disjoint bit ranges of the combined byte by design of
their constants. `mf`, `mv` and `mh` are the bit masks of the three ranges: pairwise
without a common bit, together within one byte, and every code within its own mask. -/
def Consts.fanSwingBitRanges (k : Consts) (mf mv mh : Nat) : Prop :=
  mf &&& mv = 0 ∧ mf &&& mh = 0 ∧ mv &&& mh = 0 ∧ mf ||| mv ||| mh < 256 ∧
  k.FUJITSU_AIRCON1_FAN_AUTO &&& mf = k.FUJITSU_AIRCON1_FAN_AUTO ∧
  k.FUJITSU_AIRCON1_FAN1 &&& mf = k.FUJITSU_AIRCON1_FAN1 ∧
  k.FUJITSU_AIRCON1_FAN2 &&& mf = k.FUJITSU_AIRCON1_FAN2 ∧
  k.FUJITSU_AIRCON1_FAN3 &&& mf = k.FUJITSU_AIRCON1_FAN3 ∧
  k.FUJITSU_AIRCON1_FAN4 &&& mf = k.FUJITSU_AIRCON1_FAN4 ∧
  k.FUJITSU_AIRCON1_VDIR_MANUAL &&& mv = k.FUJITSU_AIRCON1_VDIR_MANUAL ∧
  k.FUJITSU_AIRCON1_VDIR_SWING &&& mv = k.FUJITSU_AIRCON1_VDIR_SWING ∧
  k.FUJITSU_AIRCON1_HDIR_MANUAL &&& mh = k.FUJITSU_AIRCON1_HDIR_MANUAL ∧
  k.FUJITSU_AIRCON1_HDIR_SWING &&& mh = k.FUJITSU_AIRCON1_HDIR_SWING

instance (k : Consts) (mf mv mh : Nat) : Decidable (k.fanSwingBitRanges mf mv mh) := by
  unfold Consts.fanSwingBitRanges; infer_instance

/-- Modelled from the spec: the code values of `FujitsuHeatpumpIR.h` are not among the
sources. The spec's scenario gives the HEAT code as `0x04`, the eco-OFF code as `0x00`,
and `0x00` as the combined fan/swing byte for AUTO fan with both louvres fixed. -/
def Consts.scenarioCodes (k : Consts) : Prop :=
  k.FUJITSU_AIRCON1_MODE_HEAT = 0x04 ∧ k.FUJITSU_AIRCON1_ECO_OFF = 0x00 ∧
  (k.FUJITSU_AIRCON1_FAN_AUTO + k.FUJITSU_AIRCON1_VDIR_MANUAL +
    k.FUJITSU_AIRCON1_HDIR_MANUAL) % 256 = 0x00

instance (k : Consts) : Decidable k.scenarioCodes := by
  unfold Consts.scenarioCodes; infer_instance

/-- Modelled from the spec: the header values are not among the sources. The spec's
scenario fixes the HEAT code `0x04`, the eco-OFF code `0x00` and a zero fan/swing byte
for AUTO fan with both louvres fixed. The other values are sample values within the
spec's invariants: byte-sized codes, an OFF marker apart from the mode codes, distinct
command values per field, disjoint bit ranges for fan, vertical and horizontal swing. -/
def sampleConsts : Consts :=
  { POWER_OFF := 0, MODE_AUTO := 1, MODE_HEAT := 2, MODE_COOL := 3, MODE_DRY := 4, MODE_FAN := 5,
    FAN_AUTO := 0, FAN_1 := 1, FAN_2 := 2, FAN_3 := 3, FAN_4 := 4,
    VDIR_SWING := 1, HDIR_SWING := 1,
    FUJITSU_AIRCON1_HDR_MARK := 3250, FUJITSU_AIRCON1_HDR_SPACE := 1550,
    FUJITSU_AIRCON1_BIT_MARK := 400, FUJITSU_AIRCON1_ONE_SPACE := 1200,
    FUJITSU_AIRCON1_ZERO_SPACE := 390,
    FUJITSU_AIRCON1_MODE_AUTO := 0x00, FUJITSU_AIRCON1_MODE_HEAT := 0x04,
    FUJITSU_AIRCON1_MODE_COOL := 0x01, FUJITSU_AIRCON1_MODE_DRY := 0x02,
    FUJITSU_AIRCON1_MODE_FAN := 0x03, FUJITSU_AIRCON1_MODE_OFF := 0xFF,
    FUJITSU_AIRCON1_FAN_AUTO := 0x00, FUJITSU_AIRCON1_FAN1 := 0x04,
    FUJITSU_AIRCON1_FAN2 := 0x03, FUJITSU_AIRCON1_FAN3 := 0x02, FUJITSU_AIRCON1_FAN4 := 0x01,
    FUJITSU_AIRCON1_VDIR_MANUAL := 0x00, FUJITSU_AIRCON1_VDIR_SWING := 0x10,
    FUJITSU_AIRCON1_HDIR_MANUAL := 0x00, FUJITSU_AIRCON1_HDIR_SWING := 0x20,
    FUJITSU_AIRCON1_ECO_OFF := 0x00, FUJITSU_AIRCON1_ECO_ON := 0x20 }

end FujitsuHeatpumpIR

/-!
# MySensors: configuration storage of the Linux port

A shallow embedding of the in-memory part of `core/MyHwLinuxGeneric.cpp`.

* The static array `_config` is a list of bytes, passed and returned explicitly.
* `unsigned long` and `size_t` are `w` bits wide (32 or 64 on Linux); the sum in the
  range test wraps modulo `2 ^ w`.
* A `memcpy` that touches a byte outside one of its two arrays has no defined result:
  the functions return `none` there.
* The config file that `hwWriteConfigBlock` also writes never flows back into `_config`
  after start-up and is left out.
-/

namespace MyHwLinuxGeneric

/-- The constant `_length`: the size of `_config`. -/
def _length : Nat := 1024

/-- The fill loop at the start of `hwInit`: `_config[i] = 0xFF` for `i < _length`. -/
def hwInit_fill : List Nat :=
  (List.range _length).foldl (fun _config i => _config.set i 0xFF) (List.replicate _length 0)

/-- The call `memcpy(dst + d, src + s, n)` on two byte arrays: bytes `s .. s+n-1` of `src`
replace bytes `d .. d+n-1` of `dst`. The result is `none` when one of these indices lies
outside its array. -/
def memcpy (dst : List Nat) (d : Nat) (src : List Nat) (s n : Nat) : Option (List Nat) :=
  if s + n ≤ src.length ∧ d + n ≤ dst.length then
    some (dst.take d ++ (src.drop s).take n ++ dst.drop (d + n))
  else none

/-- The range test `length && offs + length <= _length` of both block functions, the
sum being computed in `w`-bit unsigned arithmetic. -/
def rangeTest (w offs length : Nat) : Bool :=
  decide (length ≠ 0) && decide ((offs + length) % 2 ^ w ≤ _length)

/-- `hwReadConfigBlock`: `addr` is the pointer argument as a `w`-bit number, `buf` the
caller's buffer. The result is the caller's buffer after the call. -/
def hwReadConfigBlock (w : Nat) (_config buf : List Nat) (addr length : Nat) :
    Option (List Nat) :=
  let offs := addr
  if rangeTest w offs length then memcpy buf 0 _config offs length
  else some buf

/-- `hwWriteConfigBlock`, in-memory part: the result is `_config` after the call. -/
def hwWriteConfigBlock (w : Nat) (_config buf : List Nat) (addr length : Nat) :
    Option (List Nat) :=
  let offs := addr
  if rangeTest w offs length then memcpy _config offs buf 0 length
  else some _config

/-- The conversion `reinterpret_cast<void*>(adr)` of an `int` to a `w`-bit pointer: the
value modulo `2 ^ w` (sign extension for a negative `adr`). -/
def ptrOfInt (w : Nat) (adr : Int) : Nat := (adr % 2 ^ w).toNat

/-- `hwReadConfig`: a one-byte buffer `value`, initialised to `0xFF`, is handed to
`hwReadConfigBlock` with length 1 and returned. -/
def hwReadConfig (w : Nat) (_config : List Nat) (adr : Int) : Option Nat :=
  let value := [0xFF]
  (hwReadConfigBlock w _config value (ptrOfInt w adr) 1).map (fun value => value.getD 0 0)

/-- `hwWriteConfig`: reads the current byte and writes only when it differs. The result
is `_config` after the call. -/
def hwWriteConfig (w : Nat) (_config : List Nat) (adr : Int) (value : Nat) :
    Option (List Nat) :=
  match hwReadConfig w _config adr with
  | none => none
  | some curr =>
    if curr ≠ value then hwWriteConfigBlock w _config [value] (ptrOfInt w adr) 1
    else some _config

end MyHwLinuxGeneric

namespace FujitsuHeatpumpIR

/-! ## Lemmas on the frame -/

theorem filledTemplate_eq (operatingMode fanSpeed temperature swingV swingH ecoMode : Nat) :
    filledTemplate operatingMode fanSpeed temperature swingV swingH ecoMode =
      [0x14, 0x63, 0x00, 0x10, 0x10, 0xFE, 0x09, 0x30, temperatureByte temperature,
        operatingMode, toByte (fanSpeed + swingV + swingH), 0x00, 0x00, 0x00, ecoMode,
        intToByte (0x9E - ((checksumLoop
          [0x14, 0x63, 0x00, 0x10, 0x10, 0xFE, 0x09, 0x30, temperatureByte temperature,
            operatingMode, toByte (fanSpeed + swingV + swingH), 0x00, 0x00, 0x00, ecoMode,
            0x00] : Nat) : Int))] := rfl

theorem checksumLoop_eq (a0 a1 a2 a3 a4 a5 a6 a7 a8 a9 a10 a11 a12 a13 a14 a15 : Nat) :
    checksumLoop [a0, a1, a2, a3, a4, a5, a6, a7, a8, a9, a10, a11, a12, a13, a14, a15] =
      (a0 + a1 + a2 + a3 + a4 + a5 + a6 + a7 + a8 + a9 + a10 + a11 + a12 + a13 + a14) % 256 := by
  simp only [checksumLoop, toByte, List.range, List.range.loop, List.foldl, List.getD,
    List.get?, Option.getD]
  omega

theorem toByte_of_lt {n : Nat} (h : n < 256) : toByte n = n := Nat.mod_eq_of_lt h

/-- With byte-sized codes and an OFF marker apart from the mode codes, a power
command other than `POWER_OFF` never normalises to the OFF marker. -/
theorem normalize_operatingMode_ne_off (k : Consts) (hb : k.codesAreBytes)
    (ha : k.offMarkerApart)
    (powerModeCmd operatingModeCmd fanSpeedCmd temperatureCmd swingVCmd swingHCmd : Nat)
    (ecoModeCmd : Bool) (hp : powerModeCmd ≠ k.POWER_OFF) :
    (normalize k powerModeCmd operatingModeCmd fanSpeedCmd temperatureCmd swingVCmd
      swingHCmd ecoModeCmd).operatingMode ≠ k.FUJITSU_AIRCON1_MODE_OFF := by
  obtain ⟨b1, b2, b3, b4, b5, -⟩ := hb
  obtain ⟨a1, a2, a3, a4, a5⟩ := ha
  simp only [normalize, if_neg hp]
  split_ifs <;> simp only [toByte_of_lt, b1, b2, b3, b4, b5] <;> assumption

/-- With a byte-sized OFF marker, `POWER_OFF` normalises to the OFF marker. -/
theorem normalize_operatingMode_off (k : Consts) (hoff : k.FUJITSU_AIRCON1_MODE_OFF < 256)
    (operatingModeCmd fanSpeedCmd temperatureCmd swingVCmd swingHCmd : Nat)
    (ecoModeCmd : Bool) :
    (normalize k k.POWER_OFF operatingModeCmd fanSpeedCmd temperatureCmd swingVCmd
      swingHCmd ecoModeCmd).operatingMode = k.FUJITSU_AIRCON1_MODE_OFF := by
  simp [normalize, toByte_of_lt hoff]

/-- The frame of a power-ON command is the filled template of its normalised values. -/
theorem sendFrame_on (k : Consts) (hb : k.codesAreBytes) (ha : k.offMarkerApart)
    (powerModeCmd operatingModeCmd fanSpeedCmd temperatureCmd swingVCmd swingHCmd : Nat)
    (ecoModeCmd : Bool) (hp : powerModeCmd ≠ k.POWER_OFF) :
    sendFrame k powerModeCmd operatingModeCmd fanSpeedCmd temperatureCmd swingVCmd
        swingHCmd ecoModeCmd =
      filledTemplate
        (normalize k powerModeCmd operatingModeCmd fanSpeedCmd temperatureCmd swingVCmd
          swingHCmd ecoModeCmd).operatingMode
        (normalize k powerModeCmd operatingModeCmd fanSpeedCmd temperatureCmd swingVCmd
          swingHCmd ecoModeCmd).fanSpeed
        (normalize k powerModeCmd operatingModeCmd fanSpeedCmd temperatureCmd swingVCmd
          swingHCmd ecoModeCmd).temperature
        (normalize k powerModeCmd operatingModeCmd fanSpeedCmd temperatureCmd swingVCmd
          swingHCmd ecoModeCmd).swingV
        (normalize k powerModeCmd operatingModeCmd fanSpeedCmd temperatureCmd swingVCmd
          swingHCmd ecoModeCmd).swingH
        (normalize k powerModeCmd operatingModeCmd fanSpeedCmd temperatureCmd swingVCmd
          swingHCmd ecoModeCmd).ecoMode := by
  have h := normalize_operatingMode_ne_off k hb ha powerModeCmd operatingModeCmd fanSpeedCmd
    temperatureCmd swingVCmd swingHCmd ecoModeCmd hp
  simp only [sendFrame, sendFujitsuFrame, if_neg h]

/-- The frame of a power-OFF command is `OFF_msg`. -/
theorem sendFrame_off (k : Consts) (hoff : k.FUJITSU_AIRCON1_MODE_OFF < 256)
    (operatingModeCmd fanSpeedCmd temperatureCmd swingVCmd swingHCmd : Nat)
    (ecoModeCmd : Bool) :
    sendFrame k k.POWER_OFF operatingModeCmd fanSpeedCmd temperatureCmd swingVCmd
      swingHCmd ecoModeCmd = OFF_msg := by
  have h := normalize_operatingMode_off k hoff operatingModeCmd fanSpeedCmd temperatureCmd
    swingVCmd swingHCmd ecoModeCmd
  simp only [sendFrame, sendFujitsuFrame, if_pos h]

/-- Every filled template has 16 bytes. -/
theorem filledTemplate_length (operatingMode fanSpeed temperature swingV swingH ecoMode : Nat) :
    (filledTemplate operatingMode fanSpeed temperature swingV swingH ecoMode).length = 16 := by
  rw [filledTemplate_eq]; rfl

/-- The bytes of a filled template, checksum byte included, sum to `0x9E` modulo 256. -/
theorem filledTemplate_sum (operatingMode fanSpeed temperature swingV swingH ecoMode : Nat) :
    (filledTemplate operatingMode fanSpeed temperature swingV swingH ecoMode).sum % 256
      = 0x9E := by
  rw [filledTemplate_eq, checksumLoop_eq]
  simp only [List.sum_cons, List.sum_nil, intToByte]
  omega

/-- The last byte of a filled template is `0x9E` minus the wrapped sum of the first 15. -/
theorem filledTemplate_checksum (operatingMode fanSpeed temperature swingV swingH ecoMode : Nat) :
    (filledTemplate operatingMode fanSpeed temperature swingV swingH ecoMode).getD 15 0 =
      (0x9E + 256 -
        ((filledTemplate operatingMode fanSpeed temperature swingV swingH ecoMode).take
          15).sum % 256) % 256 ∧
    ((filledTemplate operatingMode fanSpeed temperature swingV swingH ecoMode).take
        15).foldl (fun checksum b => (checksum + b) % 256) 0 =
      ((filledTemplate operatingMode fanSpeed temperature swingV swingH ecoMode).take
        15).sum % 256 := by
  rw [filledTemplate_eq, checksumLoop_eq]
  simp only [List.take, List.sum_cons, List.sum_nil, intToByte, List.getD, List.get?,
    Option.getD, List.foldl]
  omega

/-- The emitter calls of `send` are those of `sendFujitsuMsg` on the frame of `send`. -/
theorem send_eq_sendFujitsuMsg (k : Consts) (IR : List IRCall)
    (powerModeCmd operatingModeCmd fanSpeedCmd temperatureCmd swingVCmd swingHCmd : Nat)
    (ecoModeCmd : Bool) :
    send k IR powerModeCmd operatingModeCmd fanSpeedCmd temperatureCmd swingVCmd swingHCmd
        ecoModeCmd =
      sendFujitsuMsg k IR
        (sendFrame k powerModeCmd operatingModeCmd fanSpeedCmd temperatureCmd swingVCmd
          swingHCmd ecoModeCmd).length
        (sendFrame k powerModeCmd operatingModeCmd fanSpeedCmd temperatureCmd swingVCmd
          swingHCmd ecoModeCmd) := rfl

/-- A temperature command outside 16..30 normalises like the command 23. -/
theorem normalize_temperature_default (k : Consts)
    (powerModeCmd operatingModeCmd fanSpeedCmd temperatureCmd swingVCmd swingHCmd : Nat)
    (ecoModeCmd : Bool) (ht : ¬ (15 < temperatureCmd ∧ temperatureCmd < 31)) :
    normalize k powerModeCmd operatingModeCmd fanSpeedCmd temperatureCmd swingVCmd
        swingHCmd ecoModeCmd =
      normalize k powerModeCmd operatingModeCmd fanSpeedCmd 23 swingVCmd swingHCmd
        ecoModeCmd := by
  have ht2 : ¬ (temperatureCmd > 15 ∧ temperatureCmd < 31) := ht
  simp only [normalize, if_neg ht2]
  simp

/-- A temperature command within 16..30 is passed on unchanged. -/
theorem normalize_temperature_in_range (k : Consts)
    (powerModeCmd operatingModeCmd fanSpeedCmd temperatureCmd swingVCmd swingHCmd : Nat)
    (ecoModeCmd : Bool) (h1 : 16 ≤ temperatureCmd) (h2 : temperatureCmd ≤ 30) :
    (normalize k powerModeCmd operatingModeCmd fanSpeedCmd temperatureCmd swingVCmd
      swingHCmd ecoModeCmd).temperature = temperatureCmd := by
  have ht : temperatureCmd > 15 ∧ temperatureCmd < 31 := ⟨by omega, by omega⟩
  simp only [normalize, if_pos ht]

/-- Byte 8 of a filled template is the temperature byte. -/
theorem filledTemplate_byte8 (operatingMode fanSpeed temperature swingV swingH ecoMode : Nat) :
    (filledTemplate operatingMode fanSpeed temperature swingV swingH ecoMode).getD 8 0 =
      temperatureByte temperature := by
  rw [filledTemplate_eq]; rfl

/-! ## Bit ranges -/

/-- Numbers without a common bit add up to their bitwise OR. -/
theorem add_eq_or_of_and_eq_zero (x y : Nat) (h : x &&& y = 0) : x + y = x ||| y := by
  have hx : x < 2 ^ (x + y) :=
    lt_of_lt_of_le (Nat.lt_two_pow _) (Nat.pow_le_pow_right (by decide) (by omega))
  have hy : y < 2 ^ (x + y) :=
    lt_of_lt_of_le (Nat.lt_two_pow _) (Nat.pow_le_pow_right (by decide) (by omega))
  have hb : BitVec.ofNat (x + y) x &&& BitVec.ofNat (x + y) y = 0#(x + y) := by
    apply BitVec.eq_of_toNat_eq
    simp [BitVec.toNat_and, BitVec.toNat_ofNat, Nat.mod_eq_of_lt hx, Nat.mod_eq_of_lt hy, h]
  have h1 := BitVec.toNat_add_of_and_eq_zero hb
  have h2 := congrArg BitVec.toNat (BitVec.add_eq_or_of_and_eq_zero _ _ hb)
  rw [h1] at h2
  simpa [BitVec.toNat_or, BitVec.toNat_ofNat, Nat.mod_eq_of_lt hx, Nat.mod_eq_of_lt hy]
    using h2

/-- Three codes, each within its own mask, the masks pairwise without a common bit:
the sum is the bitwise OR, and masking the sum gives back each code. -/
theorem fanSwing_bits (x y z mf mv mh : Nat) (hx : x &&& mf = x) (hy : y &&& mv = y)
    (hz : z &&& mh = z) (h1 : mf &&& mv = 0) (h2 : mf &&& mh = 0) (h3 : mv &&& mh = 0) :
    x + y + z = x ||| y ||| z ∧
    (x + y + z) &&& (mf ||| mv ||| mh) = x + y + z ∧
    (x + y + z) &&& mf = x ∧ (x + y + z) &&& mv = y ∧ (x + y + z) &&& mh = z := by
  have bit : ∀ i, (x.testBit i = true → mf.testBit i = true) ∧
      (y.testBit i = true → mv.testBit i = true) ∧
      (z.testBit i = true → mh.testBit i = true) ∧
      ¬ (mf.testBit i = true ∧ mv.testBit i = true) ∧
      ¬ (mf.testBit i = true ∧ mh.testBit i = true) ∧
      ¬ (mv.testBit i = true ∧ mh.testBit i = true) := by
    intro i
    have e1 := congrArg (fun n => n.testBit i) hx
    have e2 := congrArg (fun n => n.testBit i) hy
    have e3 := congrArg (fun n => n.testBit i) hz
    have e4 := congrArg (fun n => n.testBit i) h1
    have e5 := congrArg (fun n => n.testBit i) h2
    have e6 := congrArg (fun n => n.testBit i) h3
    simp only [Nat.testBit_and, Nat.zero_testBit] at e1 e2 e3 e4 e5 e6
    revert e1 e2 e3 e4 e5 e6
    cases x.testBit i <;> cases y.testBit i <;> cases z.testBit i <;>
      cases mf.testBit i <;> cases mv.testBit i <;> cases mh.testBit i <;> simp
  have hxy : x &&& y = 0 := by
    apply Nat.eq_of_testBit_eq
    intro i
    have b := bit i
    simp only [Nat.testBit_and, Nat.zero_testBit]
    revert b
    cases x.testBit i <;> cases y.testBit i <;> cases z.testBit i <;>
      cases mf.testBit i <;> cases mv.testBit i <;> cases mh.testBit i <;> simp
  have hxyz : (x ||| y) &&& z = 0 := by
    apply Nat.eq_of_testBit_eq
    intro i
    have b := bit i
    simp only [Nat.testBit_and, Nat.testBit_or, Nat.zero_testBit]
    revert b
    cases x.testBit i <;> cases y.testBit i <;> cases z.testBit i <;>
      cases mf.testBit i <;> cases mv.testBit i <;> cases mh.testBit i <;> simp
  have hsum : x + y + z = x ||| y ||| z := by
    rw [add_eq_or_of_and_eq_zero x y hxy, add_eq_or_of_and_eq_zero _ z hxyz]
  rw [hsum]
  refine ⟨rfl, ?_, ?_, ?_, ?_⟩ <;>
  · apply Nat.eq_of_testBit_eq
    intro i
    have b := bit i
    simp only [Nat.testBit_and, Nat.testBit_or]
    revert b
    cases x.testBit i <;> cases y.testBit i <;> cases z.testBit i <;>
      cases mf.testBit i <;> cases mv.testBit i <;> cases mh.testBit i <;> simp

/-- A code within one of three masks that together fit a byte is itself a byte. -/
theorem code_lt_of_mask (c m a b d : Nat) (hc : c &&& m = c)
    (hm : m = a ∨ m = b ∨ m = d) (hlt : a ||| b ||| d < 256) : c < 256 := by
  refine lt_of_le_of_lt (Nat.le_of_testBit fun i hi => ?_) hlt
  have e := congrArg (fun n => n.testBit i) hc
  simp only [Nat.testBit_and, hi, Bool.true_and] at e
  simp only [Nat.testBit_or, Bool.or_eq_true]
  rcases hm with rfl | rfl | rfl
  · exact Or.inl (Or.inl e)
  · exact Or.inl (Or.inr e)
  · exact Or.inr e

/-- Under the bit ranges of the spec each normalised fan and swing code lies within
its own mask. -/
theorem normalize_codes_in_ranges (k : Consts) (mf mv mh : Nat)
    (hr : k.fanSwingBitRanges mf mv mh)
    (powerModeCmd operatingModeCmd fanSpeedCmd temperatureCmd swingVCmd swingHCmd : Nat)
    (ecoModeCmd : Bool) :
    (normalize k powerModeCmd operatingModeCmd fanSpeedCmd temperatureCmd swingVCmd
        swingHCmd ecoModeCmd).fanSpeed &&& mf =
      (normalize k powerModeCmd operatingModeCmd fanSpeedCmd temperatureCmd swingVCmd
        swingHCmd ecoModeCmd).fanSpeed ∧
    (normalize k powerModeCmd operatingModeCmd fanSpeedCmd temperatureCmd swingVCmd
        swingHCmd ecoModeCmd).swingV &&& mv =
      (normalize k powerModeCmd operatingModeCmd fanSpeedCmd temperatureCmd swingVCmd
        swingHCmd ecoModeCmd).swingV ∧
    (normalize k powerModeCmd operatingModeCmd fanSpeedCmd temperatureCmd swingVCmd
        swingHCmd ecoModeCmd).swingH &&& mh =
      (normalize k powerModeCmd operatingModeCmd fanSpeedCmd temperatureCmd swingVCmd
        swingHCmd ecoModeCmd).swingH := by
  obtain ⟨-, -, -, hlt, f0, f1, f2, f3, f4, v0, v1, g0, g1⟩ := hr
  have lf : ∀ c, c &&& mf = c → toByte c = c := fun c hc =>
    toByte_of_lt (code_lt_of_mask c mf mf mv mh hc (Or.inl rfl) hlt)
  have lv : ∀ c, c &&& mv = c → toByte c = c := fun c hc =>
    toByte_of_lt (code_lt_of_mask c mv mf mv mh hc (Or.inr (Or.inl rfl)) hlt)
  have lh : ∀ c, c &&& mh = c → toByte c = c := fun c hc =>
    toByte_of_lt (code_lt_of_mask c mh mf mv mh hc (Or.inr (Or.inr rfl)) hlt)
  simp only [normalize]
  refine ⟨?_, ?_, ?_⟩
  · split_ifs <;> simp only [lf _ f0, lf _ f1, lf _ f2, lf _ f3, lf _ f4] <;> assumption
  · split_ifs <;> simp only [lv _ v0, lv _ v1] <;> assumption
  · split_ifs <;> simp only [lh _ g0, lh _ g1] <;> assumption

/-- Byte 10 of the frame of `send`: absent (read as 0) in the OFF frame, the stored sum
of the three normalised codes otherwise. -/
theorem sendFrame_byte10 (k : Consts)
    (powerModeCmd operatingModeCmd fanSpeedCmd temperatureCmd swingVCmd swingHCmd : Nat)
    (ecoModeCmd : Bool) :
    (sendFrame k powerModeCmd operatingModeCmd fanSpeedCmd temperatureCmd swingVCmd
        swingHCmd ecoModeCmd).getD 10 0 =
      if (normalize k powerModeCmd operatingModeCmd fanSpeedCmd temperatureCmd swingVCmd
        swingHCmd ecoModeCmd).operatingMode = k.FUJITSU_AIRCON1_MODE_OFF then 0
      else toByte
        ((normalize k powerModeCmd operatingModeCmd fanSpeedCmd temperatureCmd swingVCmd
          swingHCmd ecoModeCmd).fanSpeed +
        (normalize k powerModeCmd operatingModeCmd fanSpeedCmd temperatureCmd swingVCmd
          swingHCmd ecoModeCmd).swingV +
        (normalize k powerModeCmd operatingModeCmd fanSpeedCmd temperatureCmd swingVCmd
          swingHCmd ecoModeCmd).swingH) := by
  simp only [sendFrame, sendFujitsuFrame]
  split_ifs
  · rfl
  · rw [filledTemplate_eq]; rfl

/-- Under the bit ranges of the spec, masking byte 10 of the frame of `send` with the
mask of a field gives the normalised code of that field, or 0 in the OFF frame. -/
theorem sendFrame_byte10_masked (k : Consts) (mf mv mh : Nat)
    (hr : k.fanSwingBitRanges mf mv mh)
    (powerModeCmd operatingModeCmd fanSpeedCmd temperatureCmd swingVCmd swingHCmd : Nat)
    (ecoModeCmd : Bool) :
    ((sendFrame k powerModeCmd operatingModeCmd fanSpeedCmd temperatureCmd swingVCmd
        swingHCmd ecoModeCmd).getD 10 0 &&& mf =
      if (normalize k powerModeCmd operatingModeCmd fanSpeedCmd temperatureCmd swingVCmd
        swingHCmd ecoModeCmd).operatingMode = k.FUJITSU_AIRCON1_MODE_OFF then 0
      else (normalize k powerModeCmd operatingModeCmd fanSpeedCmd temperatureCmd swingVCmd
        swingHCmd ecoModeCmd).fanSpeed) ∧
    ((sendFrame k powerModeCmd operatingModeCmd fanSpeedCmd temperatureCmd swingVCmd
        swingHCmd ecoModeCmd).getD 10 0 &&& mv =
      if (normalize k powerModeCmd operatingModeCmd fanSpeedCmd temperatureCmd swingVCmd
        swingHCmd ecoModeCmd).operatingMode = k.FUJITSU_AIRCON1_MODE_OFF then 0
      else (normalize k powerModeCmd operatingModeCmd fanSpeedCmd temperatureCmd swingVCmd
        swingHCmd ecoModeCmd).swingV) ∧
    ((sendFrame k powerModeCmd operatingModeCmd fanSpeedCmd temperatureCmd swingVCmd
        swingHCmd ecoModeCmd).getD 10 0 &&& mh =
      if (normalize k powerModeCmd operatingModeCmd fanSpeedCmd temperatureCmd swingVCmd
        swingHCmd ecoModeCmd).operatingMode = k.FUJITSU_AIRCON1_MODE_OFF then 0
      else (normalize k powerModeCmd operatingModeCmd fanSpeedCmd temperatureCmd swingVCmd
        swingHCmd ecoModeCmd).swingH) := by
  obtain ⟨cf, cv, ch⟩ := normalize_codes_in_ranges k mf mv mh hr powerModeCmd
    operatingModeCmd fanSpeedCmd temperatureCmd swingVCmd swingHCmd ecoModeCmd
  obtain ⟨m1, m2, m3, hlt, -⟩ := hr
  obtain ⟨-, hin, bf, bv, bh⟩ := fanSwing_bits _ _ _ mf mv mh cf cv ch m1 m2 m3
  have hs := lt_of_le_of_lt (hin ▸ Nat.and_le_right) hlt
  rw [sendFrame_byte10]
  split_ifs
  · simp
  · rw [toByte_of_lt hs]
    exact ⟨bf, bv, bh⟩

/-! ## The claims -/

/-- C1, as the claim states it, fails at power OFF: the frame of a power-OFF command is
the 7-byte `OFF_msg`, whose bytes sum to `0x96` modulo 256, not to `0x9E`. -/
theorem send_off_frame_sum_is_not_9E :
    sendFrame sampleConsts sampleConsts.POWER_OFF sampleConsts.MODE_HEAT
        sampleConsts.FAN_AUTO 23 0 0 false = [0x14, 0x63, 0x00, 0x10, 0x10, 0x02, 0xFD] ∧
    (sendFrame sampleConsts sampleConsts.POWER_OFF sampleConsts.MODE_HEAT
        sampleConsts.FAN_AUTO 23 0 0 false).sum % 256 = 0x96 ∧
    (sendFrame sampleConsts sampleConsts.POWER_OFF sampleConsts.MODE_HEAT
        sampleConsts.FAN_AUTO 23 0 0 false).sum % 256 ≠ 0x9E := by
  decide

/-- C1, amended: for byte-sized codes and an OFF marker apart from the mode codes, the
frame of every power-ON command has 16 bytes that sum, checksum byte included, to `0x9E`
modulo 256; the frame of every power-OFF command has 7 bytes that sum to `0x96`
modulo 256. -/
theorem send_frame_length_and_sum (k : Consts) (hb : k.codesAreBytes) (ha : k.offMarkerApart)
    (powerModeCmd operatingModeCmd fanSpeedCmd temperatureCmd swingVCmd swingHCmd : Nat)
    (ecoModeCmd : Bool) :
    (powerModeCmd ≠ k.POWER_OFF →
      (sendFrame k powerModeCmd operatingModeCmd fanSpeedCmd temperatureCmd swingVCmd
        swingHCmd ecoModeCmd).length = 16 ∧
      (sendFrame k powerModeCmd operatingModeCmd fanSpeedCmd temperatureCmd swingVCmd
        swingHCmd ecoModeCmd).sum % 256 = 0x9E) ∧
    (powerModeCmd = k.POWER_OFF →
      (sendFrame k powerModeCmd operatingModeCmd fanSpeedCmd temperatureCmd swingVCmd
        swingHCmd ecoModeCmd).length = 7 ∧
      (sendFrame k powerModeCmd operatingModeCmd fanSpeedCmd temperatureCmd swingVCmd
        swingHCmd ecoModeCmd).sum % 256 = 0x96) := by
  constructor
  · intro hp
    rw [sendFrame_on k hb ha _ _ _ _ _ _ _ hp]
    exact ⟨filledTemplate_length _ _ _ _ _ _, filledTemplate_sum _ _ _ _ _ _⟩
  · intro hp
    subst hp
    rw [sendFrame_off k hb.2.2.2.2.2.1]
    exact ⟨rfl, rfl⟩

/-- C1, amended, at the sample constants with a power-ON HEAT command at 23 degrees. -/
theorem send_frame_length_and_sum_witness :
    sampleConsts.codesAreBytes ∧ sampleConsts.offMarkerApart ∧
    (sendFrame sampleConsts 1 2 0 23 0 0 false).length = 16 ∧
    (sendFrame sampleConsts 1 2 0 23 0 0 false).sum % 256 = 0x9E :=
  ⟨by decide, by decide,
    (send_frame_length_and_sum sampleConsts (by decide) (by decide) 1 2 0 23 0 0 false).1
      (by decide)⟩

/-- C2: for byte-sized codes and an OFF marker apart from the mode codes, the frame of
every power-ON command has 16 bytes, and its byte 15 is `0x9E` minus the sum of bytes
0..14 modulo 256; an accumulator that wraps modulo 256 at each addition gives the same
sum. -/
theorem send_on_frame_checksum (k : Consts) (hb : k.codesAreBytes) (ha : k.offMarkerApart)
    (powerModeCmd operatingModeCmd fanSpeedCmd temperatureCmd swingVCmd swingHCmd : Nat)
    (ecoModeCmd : Bool) (hp : powerModeCmd ≠ k.POWER_OFF) :
    (sendFrame k powerModeCmd operatingModeCmd fanSpeedCmd temperatureCmd swingVCmd
      swingHCmd ecoModeCmd).length = 16 ∧
    (sendFrame k powerModeCmd operatingModeCmd fanSpeedCmd temperatureCmd swingVCmd
      swingHCmd ecoModeCmd).getD 15 0 =
      (0x9E + 256 -
        ((sendFrame k powerModeCmd operatingModeCmd fanSpeedCmd temperatureCmd swingVCmd
          swingHCmd ecoModeCmd).take 15).sum % 256) % 256 ∧
    ((sendFrame k powerModeCmd operatingModeCmd fanSpeedCmd temperatureCmd swingVCmd
        swingHCmd ecoModeCmd).take 15).foldl (fun checksum b => (checksum + b) % 256) 0 =
      ((sendFrame k powerModeCmd operatingModeCmd fanSpeedCmd temperatureCmd swingVCmd
        swingHCmd ecoModeCmd).take 15).sum % 256 := by
  rw [sendFrame_on k hb ha _ _ _ _ _ _ _ hp]
  exact ⟨filledTemplate_length _ _ _ _ _ _, filledTemplate_checksum _ _ _ _ _ _⟩

/-- C2 at the sample constants: power ON, COOL, fan 2, 27 degrees, both swings, eco. -/
theorem send_on_frame_checksum_witness :
    (1 : Nat) ≠ sampleConsts.POWER_OFF ∧
    (sendFrame sampleConsts 1 3 2 27 1 1 true).length = 16 ∧
    (sendFrame sampleConsts 1 3 2 27 1 1 true).getD 15 0 =
      (0x9E + 256 - ((sendFrame sampleConsts 1 3 2 27 1 1 true).take 15).sum % 256) % 256 :=
  have h := send_on_frame_checksum sampleConsts (by decide) (by decide) 1 3 2 27 1 1 true
    (by decide)
  ⟨by decide, h.1, h.2.1⟩

/-- C3: for a byte-sized OFF marker, whatever the other arguments are, the frame of a
power-OFF command is `[0x14,0x63,0x00,0x10,0x10,0x02,0xFD]`, and the emitter calls of
`send` are those of `sendFujitsuMsg` on these 7 bytes. -/
theorem send_power_off_frame (k : Consts) (hoff : k.FUJITSU_AIRCON1_MODE_OFF < 256)
    (IR : List IRCall)
    (powerModeCmd operatingModeCmd fanSpeedCmd temperatureCmd swingVCmd swingHCmd : Nat)
    (ecoModeCmd : Bool) (hp : powerModeCmd = k.POWER_OFF) :
    sendFrame k powerModeCmd operatingModeCmd fanSpeedCmd temperatureCmd swingVCmd
        swingHCmd ecoModeCmd = [0x14, 0x63, 0x00, 0x10, 0x10, 0x02, 0xFD] ∧
    send k IR powerModeCmd operatingModeCmd fanSpeedCmd temperatureCmd swingVCmd
        swingHCmd ecoModeCmd =
      sendFujitsuMsg k IR 7 [0x14, 0x63, 0x00, 0x10, 0x10, 0x02, 0xFD] := by
  subst hp
  rw [send_eq_sendFujitsuMsg, sendFrame_off k hoff]
  exact ⟨rfl, rfl⟩

/-- C3 at the sample constants: power OFF with COOL, fan 3, 40 degrees, swing and eco. -/
theorem send_power_off_frame_witness :
    sampleConsts.FUJITSU_AIRCON1_MODE_OFF < 256 ∧
    sendFrame sampleConsts 0 3 3 40 1 1 true = [0x14, 0x63, 0x00, 0x10, 0x10, 0x02, 0xFD] :=
  ⟨by decide, (send_power_off_frame sampleConsts (by decide) [] 0 3 3 40 1 1 true rfl).1⟩

/-- C4: for byte-sized codes and an OFF marker apart from the mode codes, every
temperature command `t` in 16..30 of a power-ON command is recovered from byte 8 of the
16-byte frame as `(byte8 >> 4) + 16`, and the low nibble of byte 8 is `0x1`. -/
theorem send_temperature_roundtrip (k : Consts) (hb : k.codesAreBytes)
    (ha : k.offMarkerApart)
    (powerModeCmd operatingModeCmd fanSpeedCmd temperatureCmd swingVCmd swingHCmd : Nat)
    (ecoModeCmd : Bool) (hp : powerModeCmd ≠ k.POWER_OFF)
    (h1 : 16 ≤ temperatureCmd) (h2 : temperatureCmd ≤ 30) :
    (sendFrame k powerModeCmd operatingModeCmd fanSpeedCmd temperatureCmd swingVCmd
      swingHCmd ecoModeCmd).length = 16 ∧
    ((sendFrame k powerModeCmd operatingModeCmd fanSpeedCmd temperatureCmd swingVCmd
      swingHCmd ecoModeCmd).getD 8 0 >>> 4) + 16 = temperatureCmd ∧
    (sendFrame k powerModeCmd operatingModeCmd fanSpeedCmd temperatureCmd swingVCmd
      swingHCmd ecoModeCmd).getD 8 0 &&& 0x0F = 0x1 := by
  rw [sendFrame_on k hb ha _ _ _ _ _ _ _ hp, filledTemplate_byte8,
    normalize_temperature_in_range k _ _ _ _ _ _ _ h1 h2]
  refine ⟨filledTemplate_length _ _ _ _ _ _, ?_⟩
  interval_cases temperatureCmd <;> decide

/-- C4 at the sample constants: 19 degrees gives byte 8 = `0x31`. -/
theorem send_temperature_roundtrip_witness :
    ((sendFrame sampleConsts 1 2 0 19 0 0 false).getD 8 0 >>> 4) + 16 = 19 ∧
    (sendFrame sampleConsts 1 2 0 19 0 0 false).getD 8 0 &&& 0x0F = 0x1 :=
  (send_temperature_roundtrip sampleConsts (by decide) (by decide) 1 2 0 19 0 0 false
    (by decide) (by decide) (by decide)).2

/-- C5: a temperature command outside 16..30 gives the frame of the same command with
temperature 23. For a power-ON command (byte-sized codes, OFF marker apart from the mode
codes) byte 8 of that frame is `0x71`, and the frame differs from the frames of the
boundary temperatures 16 and 30. -/
theorem send_temperature_out_of_range (k : Consts)
    (powerModeCmd operatingModeCmd fanSpeedCmd temperatureCmd swingVCmd swingHCmd : Nat)
    (ecoModeCmd : Bool) (ht : ¬ (16 ≤ temperatureCmd ∧ temperatureCmd ≤ 30)) :
    sendFrame k powerModeCmd operatingModeCmd fanSpeedCmd temperatureCmd swingVCmd
        swingHCmd ecoModeCmd =
      sendFrame k powerModeCmd operatingModeCmd fanSpeedCmd 23 swingVCmd swingHCmd
        ecoModeCmd ∧
    (k.codesAreBytes → k.offMarkerApart → powerModeCmd ≠ k.POWER_OFF →
      (sendFrame k powerModeCmd operatingModeCmd fanSpeedCmd temperatureCmd swingVCmd
        swingHCmd ecoModeCmd).getD 8 0 = 0x71 ∧
      sendFrame k powerModeCmd operatingModeCmd fanSpeedCmd temperatureCmd swingVCmd
          swingHCmd ecoModeCmd ≠
        sendFrame k powerModeCmd operatingModeCmd fanSpeedCmd 16 swingVCmd swingHCmd
          ecoModeCmd ∧
      sendFrame k powerModeCmd operatingModeCmd fanSpeedCmd temperatureCmd swingVCmd
          swingHCmd ecoModeCmd ≠
        sendFrame k powerModeCmd operatingModeCmd fanSpeedCmd 30 swingVCmd swingHCmd
          ecoModeCmd) := by
  have hn := normalize_temperature_default k powerModeCmd operatingModeCmd fanSpeedCmd
    temperatureCmd swingVCmd swingHCmd ecoModeCmd (by omega)
  have hf : sendFrame k powerModeCmd operatingModeCmd fanSpeedCmd temperatureCmd swingVCmd
      swingHCmd ecoModeCmd =
      sendFrame k powerModeCmd operatingModeCmd fanSpeedCmd 23 swingVCmd swingHCmd
        ecoModeCmd := by
    simp only [sendFrame, hn]
  refine ⟨hf, fun hb ha hp => ?_⟩
  have h8 : ∀ t, 16 ≤ t → t ≤ 30 →
      (sendFrame k powerModeCmd operatingModeCmd fanSpeedCmd t swingVCmd
        swingHCmd ecoModeCmd).getD 8 0 = temperatureByte t := by
    intro t h1 h2
    rw [sendFrame_on k hb ha _ _ _ _ _ _ _ hp, filledTemplate_byte8,
      normalize_temperature_in_range k _ _ _ _ _ _ _ h1 h2]
  have h23 := h8 23 (by decide) (by decide)
  have h16 := h8 16 (by decide) (by decide)
  have h30 := h8 30 (by decide) (by decide)
  rw [hf]
  refine ⟨h23.trans (by decide), fun h => ?_, fun h => ?_⟩
  · rw [h, h16] at h23
    revert h23; decide
  · rw [h, h30] at h23
    revert h23; decide

/-- C5 at the sample constants: 40 degrees gives the frame of 23 degrees. -/
theorem send_temperature_out_of_range_witness :
    ¬ (16 ≤ 40 ∧ 40 ≤ 30) ∧
    sendFrame sampleConsts 1 2 0 40 0 0 false = sendFrame sampleConsts 1 2 0 23 0 0 false :=
  ⟨by decide, (send_temperature_out_of_range sampleConsts 1 2 0 40 0 0 false (by decide)).1⟩

/-- C6: when fan speed, vertical swing and horizontal swing codes occupy disjoint bit
ranges of one byte (masks `mf`, `mv`, `mh`), the sum of the three normalised codes equals
their bitwise OR and stays below 256, it is byte 10 of every 16-byte frame, and replacing
any one of the three commands leaves the bits of byte 10 under the masks of the other two
fields unchanged. -/
theorem send_fan_swing_disjoint_bits (k : Consts) (mf mv mh : Nat)
    (hr : k.fanSwingBitRanges mf mv mh)
    (powerModeCmd operatingModeCmd fanSpeedCmd temperatureCmd swingVCmd swingHCmd : Nat)
    (ecoModeCmd : Bool) :
    ((normalize k powerModeCmd operatingModeCmd fanSpeedCmd temperatureCmd swingVCmd
        swingHCmd ecoModeCmd).fanSpeed +
      (normalize k powerModeCmd operatingModeCmd fanSpeedCmd temperatureCmd swingVCmd
        swingHCmd ecoModeCmd).swingV +
      (normalize k powerModeCmd operatingModeCmd fanSpeedCmd temperatureCmd swingVCmd
        swingHCmd ecoModeCmd).swingH =
      (normalize k powerModeCmd operatingModeCmd fanSpeedCmd temperatureCmd swingVCmd
        swingHCmd ecoModeCmd).fanSpeed |||
      (normalize k powerModeCmd operatingModeCmd fanSpeedCmd temperatureCmd swingVCmd
        swingHCmd ecoModeCmd).swingV |||
      (normalize k powerModeCmd operatingModeCmd fanSpeedCmd temperatureCmd swingVCmd
        swingHCmd ecoModeCmd).swingH) ∧
    ((normalize k powerModeCmd operatingModeCmd fanSpeedCmd temperatureCmd swingVCmd
        swingHCmd ecoModeCmd).fanSpeed +
      (normalize k powerModeCmd operatingModeCmd fanSpeedCmd temperatureCmd swingVCmd
        swingHCmd ecoModeCmd).swingV +
      (normalize k powerModeCmd operatingModeCmd fanSpeedCmd temperatureCmd swingVCmd
        swingHCmd ecoModeCmd).swingH < 256) ∧
    ((normalize k powerModeCmd operatingModeCmd fanSpeedCmd temperatureCmd swingVCmd
        swingHCmd ecoModeCmd).operatingMode ≠ k.FUJITSU_AIRCON1_MODE_OFF →
      (sendFrame k powerModeCmd operatingModeCmd fanSpeedCmd temperatureCmd swingVCmd
        swingHCmd ecoModeCmd).getD 10 0 =
      (normalize k powerModeCmd operatingModeCmd fanSpeedCmd temperatureCmd swingVCmd
        swingHCmd ecoModeCmd).fanSpeed +
      (normalize k powerModeCmd operatingModeCmd fanSpeedCmd temperatureCmd swingVCmd
        swingHCmd ecoModeCmd).swingV +
      (normalize k powerModeCmd operatingModeCmd fanSpeedCmd temperatureCmd swingVCmd
        swingHCmd ecoModeCmd).swingH) ∧
    (∀ fanSpeedCmd2 : Nat,
      (sendFrame k powerModeCmd operatingModeCmd fanSpeedCmd2 temperatureCmd swingVCmd
          swingHCmd ecoModeCmd).getD 10 0 &&& mv =
        (sendFrame k powerModeCmd operatingModeCmd fanSpeedCmd temperatureCmd swingVCmd
          swingHCmd ecoModeCmd).getD 10 0 &&& mv ∧
      (sendFrame k powerModeCmd operatingModeCmd fanSpeedCmd2 temperatureCmd swingVCmd
          swingHCmd ecoModeCmd).getD 10 0 &&& mh =
        (sendFrame k powerModeCmd operatingModeCmd fanSpeedCmd temperatureCmd swingVCmd
          swingHCmd ecoModeCmd).getD 10 0 &&& mh) ∧
    (∀ swingVCmd2 : Nat,
      (sendFrame k powerModeCmd operatingModeCmd fanSpeedCmd temperatureCmd swingVCmd2
          swingHCmd ecoModeCmd).getD 10 0 &&& mf =
        (sendFrame k powerModeCmd operatingModeCmd fanSpeedCmd temperatureCmd swingVCmd
          swingHCmd ecoModeCmd).getD 10 0 &&& mf ∧
      (sendFrame k powerModeCmd operatingModeCmd fanSpeedCmd temperatureCmd swingVCmd2
          swingHCmd ecoModeCmd).getD 10 0 &&& mh =
        (sendFrame k powerModeCmd operatingModeCmd fanSpeedCmd temperatureCmd swingVCmd
          swingHCmd ecoModeCmd).getD 10 0 &&& mh) ∧
    (∀ swingHCmd2 : Nat,
      (sendFrame k powerModeCmd operatingModeCmd fanSpeedCmd temperatureCmd swingVCmd
          swingHCmd2 ecoModeCmd).getD 10 0 &&& mf =
        (sendFrame k powerModeCmd operatingModeCmd fanSpeedCmd temperatureCmd swingVCmd
          swingHCmd ecoModeCmd).getD 10 0 &&& mf ∧
      (sendFrame k powerModeCmd operatingModeCmd fanSpeedCmd temperatureCmd swingVCmd
          swingHCmd2 ecoModeCmd).getD 10 0 &&& mv =
        (sendFrame k powerModeCmd operatingModeCmd fanSpeedCmd temperatureCmd swingVCmd
          swingHCmd ecoModeCmd).getD 10 0 &&& mv) := by
  have hm := fun f v h => sendFrame_byte10_masked k mf mv mh hr powerModeCmd
    operatingModeCmd f temperatureCmd v h ecoModeCmd
  obtain ⟨cf, cv, ch⟩ := normalize_codes_in_ranges k mf mv mh hr powerModeCmd
    operatingModeCmd fanSpeedCmd temperatureCmd swingVCmd swingHCmd ecoModeCmd
  obtain ⟨hsum, hin, -⟩ := fanSwing_bits _ _ _ mf mv mh cf cv ch hr.1 hr.2.1 hr.2.2.1
  have hs := lt_of_le_of_lt (hin ▸ Nat.and_le_right) hr.2.2.2.1
  refine ⟨hsum, hs, fun hon => ?_, fun f2 => ⟨?_, ?_⟩, fun v2 => ⟨?_, ?_⟩,
    fun h2 => ⟨?_, ?_⟩⟩
  · rw [sendFrame_byte10, if_neg hon, toByte_of_lt hs]
  · rw [(hm f2 swingVCmd swingHCmd).2.1, (hm fanSpeedCmd swingVCmd swingHCmd).2.1]; rfl
  · rw [(hm f2 swingVCmd swingHCmd).2.2, (hm fanSpeedCmd swingVCmd swingHCmd).2.2]; rfl
  · rw [(hm fanSpeedCmd v2 swingHCmd).1, (hm fanSpeedCmd swingVCmd swingHCmd).1]; rfl
  · rw [(hm fanSpeedCmd v2 swingHCmd).2.2, (hm fanSpeedCmd swingVCmd swingHCmd).2.2]; rfl
  · rw [(hm fanSpeedCmd swingVCmd h2).1, (hm fanSpeedCmd swingVCmd swingHCmd).1]; rfl
  · rw [(hm fanSpeedCmd swingVCmd h2).2.1, (hm fanSpeedCmd swingVCmd swingHCmd).2.1]; rfl

/-- C6 at the sample constants with the masks `0x07`, `0x10`, `0x20`: fan 1 with both
swings gives byte 10 = `0x34`, and fan 3 instead of fan 1 keeps the swing bits. -/
theorem send_fan_swing_disjoint_bits_witness :
    sampleConsts.fanSwingBitRanges 0x07 0x10 0x20 ∧
    (sendFrame sampleConsts 1 2 1 23 1 1 false).getD 10 0 = 0x34 ∧
    (sendFrame sampleConsts 1 2 3 23 1 1 false).getD 10 0 &&& 0x10 =
      (sendFrame sampleConsts 1 2 1 23 1 1 false).getD 10 0 &&& 0x10 :=
  have h := send_fan_swing_disjoint_bits sampleConsts 0x07 0x10 0x20 (by decide)
    1 2 1 23 1 1 false
  ⟨by decide, (h.2.2.1 (by decide)).trans (by decide), (h.2.2.2.1 3).1⟩

/-- C7: with the code values of the spec's scenario (HEAT `0x04`, eco-OFF `0x00`, zero
fan/swing byte), a HEAT code other than the OFF marker and `MODE_AUTO` other than
`MODE_HEAT`, the command power ON, HEAT, fan AUTO, 23 degrees, no swing, eco off gives
the frame `14 63 00 10 10 FE 09 30 71 04 00 00 00 00 00 5B`, whose last byte is `0x9E`
minus the sum of bytes 0..14 modulo 256. -/
theorem send_scenario_heat_23 (k : Consts) (hs : k.scenarioCodes)
    (hoff : k.FUJITSU_AIRCON1_MODE_HEAT ≠ k.FUJITSU_AIRCON1_MODE_OFF)
    (hlab : k.MODE_AUTO ≠ k.MODE_HEAT)
    (powerModeCmd swingVCmd swingHCmd : Nat) (hp : powerModeCmd ≠ k.POWER_OFF)
    (hv : swingVCmd ≠ k.VDIR_SWING) (hh : swingHCmd ≠ k.HDIR_SWING) :
    sendFrame k powerModeCmd k.MODE_HEAT k.FAN_AUTO 23 swingVCmd swingHCmd false =
      [0x14, 0x63, 0x00, 0x10, 0x10, 0xFE, 0x09, 0x30, 0x71, 0x04, 0x00, 0x00, 0x00, 0x00,
        0x00, 0x5B] ∧
    (sendFrame k powerModeCmd k.MODE_HEAT k.FAN_AUTO 23 swingVCmd swingHCmd false).getD 15 0 =
      (0x9E + 256 -
        ((sendFrame k powerModeCmd k.MODE_HEAT k.FAN_AUTO 23 swingVCmd swingHCmd
          false).take 15).sum % 256) % 256 := by
  obtain ⟨s1, s2, s3⟩ := hs
  have hn : normalize k powerModeCmd k.MODE_HEAT k.FAN_AUTO 23 swingVCmd swingHCmd false =
      { operatingMode := 0x04, fanSpeed := toByte k.FUJITSU_AIRCON1_FAN_AUTO, temperature := 23,
        swingV := toByte k.FUJITSU_AIRCON1_VDIR_MANUAL,
        swingH := toByte k.FUJITSU_AIRCON1_HDIR_MANUAL, ecoMode := 0x00 } := by
    have hlab2 : ¬ (k.MODE_HEAT = k.MODE_AUTO) := fun h => hlab h.symm
    simp [normalize, hp, hv, hh, hlab2, s1, s2, toByte]
  have h10 : toByte (toByte k.FUJITSU_AIRCON1_FAN_AUTO + toByte k.FUJITSU_AIRCON1_VDIR_MANUAL +
      toByte k.FUJITSU_AIRCON1_HDIR_MANUAL) = 0 := by
    simp only [toByte]; omega
  have hne : ¬ ((4 : Nat) = k.FUJITSU_AIRCON1_MODE_OFF) := fun h => hoff (s1.trans h)
  have hf : sendFrame k powerModeCmd k.MODE_HEAT k.FAN_AUTO 23 swingVCmd swingHCmd false =
      [0x14, 0x63, 0x00, 0x10, 0x10, 0xFE, 0x09, 0x30, 0x71, 0x04, 0x00, 0x00, 0x00, 0x00,
        0x00, 0x5B] := by
    simp only [sendFrame, hn, sendFujitsuFrame, if_neg hne]
    rw [filledTemplate_eq, h10]
    rfl
  rw [hf]
  exact ⟨rfl, rfl⟩

/-- C7 at the sample constants. -/
theorem send_scenario_heat_23_witness :
    sampleConsts.scenarioCodes ∧
    sendFrame sampleConsts 1 sampleConsts.MODE_HEAT sampleConsts.FAN_AUTO 23 0 0 false =
      [0x14, 0x63, 0x00, 0x10, 0x10, 0xFE, 0x09, 0x30, 0x71, 0x04, 0x00, 0x00, 0x00, 0x00,
        0x00, 0x5B] :=
  ⟨by decide, (send_scenario_heat_23 sampleConsts (by decide) (by decide) (by decide) 1 0 0
    (by decide) (by decide) (by decide)).1⟩

/-- C8: when `MODE_AUTO` and `MODE_HEAT` are different command values, an operating mode
command that is none of `MODE_AUTO`, `MODE_HEAT`, `MODE_COOL`, `MODE_DRY`, `MODE_FAN`
gives the frame of the same command with `MODE_HEAT`, for power ON as for any other
power command. -/
theorem send_unknown_mode_is_heat (k : Consts) (hlab : k.MODE_AUTO ≠ k.MODE_HEAT)
    (powerModeCmd operatingModeCmd fanSpeedCmd temperatureCmd swingVCmd swingHCmd : Nat)
    (ecoModeCmd : Bool) (IR : List IRCall)
    (h1 : operatingModeCmd ≠ k.MODE_AUTO) (h2 : operatingModeCmd ≠ k.MODE_HEAT)
    (h3 : operatingModeCmd ≠ k.MODE_COOL) (h4 : operatingModeCmd ≠ k.MODE_DRY)
    (h5 : operatingModeCmd ≠ k.MODE_FAN) :
    sendFrame k powerModeCmd operatingModeCmd fanSpeedCmd temperatureCmd swingVCmd
        swingHCmd ecoModeCmd =
      sendFrame k powerModeCmd k.MODE_HEAT fanSpeedCmd temperatureCmd swingVCmd swingHCmd
        ecoModeCmd ∧
    send k IR powerModeCmd operatingModeCmd fanSpeedCmd temperatureCmd swingVCmd
        swingHCmd ecoModeCmd =
      send k IR powerModeCmd k.MODE_HEAT fanSpeedCmd temperatureCmd swingVCmd swingHCmd
        ecoModeCmd := by
  have hlab2 : ¬ (k.MODE_HEAT = k.MODE_AUTO) := fun h => hlab h.symm
  have hn : normalize k powerModeCmd operatingModeCmd fanSpeedCmd temperatureCmd swingVCmd
      swingHCmd ecoModeCmd =
      normalize k powerModeCmd k.MODE_HEAT fanSpeedCmd temperatureCmd swingVCmd swingHCmd
        ecoModeCmd := by
    simp only [normalize, if_neg h1, if_neg h2, if_neg h3, if_neg h4, if_neg h5, if_neg hlab2,
      if_true]
  simp only [send, sendFrame, hn, and_self]

/-- C8 at the sample constants: mode command 9 is none of the five modes. -/
theorem send_unknown_mode_is_heat_witness :
    sendFrame sampleConsts 1 9 2 21 1 0 false =
      sendFrame sampleConsts 1 sampleConsts.MODE_HEAT 2 21 1 0 false :=
  (send_unknown_mode_is_heat sampleConsts (by decide) 1 9 2 21 1 0 false [] (by decide)
    (by decide) (by decide) (by decide) (by decide)).1

/-- C9: a fan speed command that is none of `FAN_AUTO`, `FAN_1`, `FAN_2`, `FAN_3`,
`FAN_4` gives the frame of the same command with `FAN_AUTO`, whatever the constants. -/
theorem send_unknown_fan_is_auto (k : Consts)
    (powerModeCmd operatingModeCmd fanSpeedCmd temperatureCmd swingVCmd swingHCmd : Nat)
    (ecoModeCmd : Bool) (IR : List IRCall)
    (h0 : fanSpeedCmd ≠ k.FAN_AUTO) (h1 : fanSpeedCmd ≠ k.FAN_1) (h2 : fanSpeedCmd ≠ k.FAN_2)
    (h3 : fanSpeedCmd ≠ k.FAN_3) (h4 : fanSpeedCmd ≠ k.FAN_4) :
    sendFrame k powerModeCmd operatingModeCmd fanSpeedCmd temperatureCmd swingVCmd
        swingHCmd ecoModeCmd =
      sendFrame k powerModeCmd operatingModeCmd k.FAN_AUTO temperatureCmd swingVCmd swingHCmd
        ecoModeCmd ∧
    send k IR powerModeCmd operatingModeCmd fanSpeedCmd temperatureCmd swingVCmd
        swingHCmd ecoModeCmd =
      send k IR powerModeCmd operatingModeCmd k.FAN_AUTO temperatureCmd swingVCmd swingHCmd
        ecoModeCmd := by
  have hn : normalize k powerModeCmd operatingModeCmd fanSpeedCmd temperatureCmd swingVCmd
      swingHCmd ecoModeCmd =
      normalize k powerModeCmd operatingModeCmd k.FAN_AUTO temperatureCmd swingVCmd swingHCmd
        ecoModeCmd := by
    simp only [normalize, if_neg h0, if_neg h1, if_neg h2, if_neg h3, if_neg h4, if_true]
  simp only [send, sendFrame, hn, and_self]

/-- C9 at the sample constants: fan command 7 is none of the five fan speeds. -/
theorem send_unknown_fan_is_auto_witness :
    sendFrame sampleConsts 1 3 7 21 1 0 true =
      sendFrame sampleConsts 1 3 sampleConsts.FAN_AUTO 21 1 0 true :=
  (send_unknown_fan_is_auto sampleConsts 1 3 7 21 1 0 true [] (by decide) (by decide)
    (by decide) (by decide) (by decide)).1

/-- C10: the frame depends on each swing command only through whether it equals the
SWING value: two commands that agree on `swingVCmd = VDIR_SWING` and on
`swingHCmd = HDIR_SWING` give the same frame. A vertical command other than `VDIR_SWING`
normalises to the stored `FUJITSU_AIRCON1_VDIR_MANUAL`, a horizontal command other than
`HDIR_SWING` to the stored `FUJITSU_AIRCON1_HDIR_MANUAL`. -/
theorem send_swing_only_through_swing_value (k : Consts)
    (powerModeCmd operatingModeCmd fanSpeedCmd temperatureCmd : Nat)
    (swingVCmd swingHCmd swingVCmd2 swingHCmd2 : Nat) (ecoModeCmd : Bool)
    (hv : swingVCmd = k.VDIR_SWING ↔ swingVCmd2 = k.VDIR_SWING)
    (hh : swingHCmd = k.HDIR_SWING ↔ swingHCmd2 = k.HDIR_SWING) :
    sendFrame k powerModeCmd operatingModeCmd fanSpeedCmd temperatureCmd swingVCmd
        swingHCmd ecoModeCmd =
      sendFrame k powerModeCmd operatingModeCmd fanSpeedCmd temperatureCmd swingVCmd2
        swingHCmd2 ecoModeCmd ∧
    (swingVCmd ≠ k.VDIR_SWING →
      (normalize k powerModeCmd operatingModeCmd fanSpeedCmd temperatureCmd swingVCmd
        swingHCmd ecoModeCmd).swingV = toByte k.FUJITSU_AIRCON1_VDIR_MANUAL) ∧
    (swingHCmd ≠ k.HDIR_SWING →
      (normalize k powerModeCmd operatingModeCmd fanSpeedCmd temperatureCmd swingVCmd
        swingHCmd ecoModeCmd).swingH = toByte k.FUJITSU_AIRCON1_HDIR_MANUAL) := by
  have hn : normalize k powerModeCmd operatingModeCmd fanSpeedCmd temperatureCmd swingVCmd
      swingHCmd ecoModeCmd =
      normalize k powerModeCmd operatingModeCmd fanSpeedCmd temperatureCmd swingVCmd2
        swingHCmd2 ecoModeCmd := by
    simp only [normalize, hv, hh]
  refine ⟨by simp only [sendFrame, hn], fun h => ?_, fun h => ?_⟩
  · simp only [normalize, if_neg h]
  · simp only [normalize, if_neg h]

/-- C10 at the sample constants: the vertical commands 0 and 5 and the horizontal
commands 2 and 6 are all other than SWING and give one frame. -/
theorem send_swing_only_through_swing_value_witness :
    sendFrame sampleConsts 1 3 2 21 0 2 false = sendFrame sampleConsts 1 3 2 21 5 6 false :=
  (send_swing_only_through_swing_value sampleConsts 1 3 2 21 0 2 5 6 false (by decide)
    (by decide)).1

/-! ## Lemmas on the emitter calls -/

/-- A loop that appends one call per index adds the calls in index order. -/
theorem foldl_append_range (f : Nat → IRCall) (n : Nat) (IR : List IRCall) :
    (List.range n).foldl (fun IR i => IR ++ [f i]) IR = IR ++ (List.range n).map f := by
  induction n with
  | zero => simp
  | succ n ih => simp [List.range_succ, List.foldl_append, ih]

/-- Reading the bytes of a message by index gives back the message. -/
theorem map_range_getD (g : Nat → IRCall) (msg : List Nat) :
    (List.range msg.length).map (fun i => g (msg.getD i 0)) = msg.map g := by
  apply List.ext_getElem
  · simp
  · intro i h1 h2
    simp only [List.length_map, List.length_range] at h1
    simp [List.getD_eq_getElem?_getD, List.getElem?_eq_getElem h1]

/-- The emitter calls of `sendFujitsuMsg` in closed form. -/
theorem sendFujitsuMsg_eq (k : Consts) (IR : List IRCall) (msgSize : Nat) (msg : List Nat) :
    sendFujitsuMsg k IR msgSize msg =
      IR ++ [IRCall.setFrequency 40, IRCall.mark k.FUJITSU_AIRCON1_HDR_MARK,
        IRCall.space k.FUJITSU_AIRCON1_HDR_SPACE] ++
      (List.range msgSize).map (fun i => IRCall.sendIRByte (msg.getD i 0)
        k.FUJITSU_AIRCON1_BIT_MARK k.FUJITSU_AIRCON1_ZERO_SPACE k.FUJITSU_AIRCON1_ONE_SPACE) ++
      [IRCall.mark k.FUJITSU_AIRCON1_BIT_MARK, IRCall.space 0] := by
  simp only [sendFujitsuMsg, foldl_append_range]
  simp [List.append_assoc]

/-- The calls of `sendFujitsuMsg` on the 7-byte frame that ends with `b5`, `b6`. -/
theorem sendFujitsuMsg_seven (k : Consts) (IR : List IRCall) (b5 b6 : Nat) :
    sendFujitsuMsg k IR 7 [0x14, 0x63, 0x00, 0x10, 0x10, b5, b6] =
      IR ++ ([IRCall.setFrequency 40, IRCall.mark k.FUJITSU_AIRCON1_HDR_MARK,
        IRCall.space k.FUJITSU_AIRCON1_HDR_SPACE] ++
      [0x14, 0x63, 0x00, 0x10, 0x10, b5, b6].map (fun b => IRCall.sendIRByte b
        k.FUJITSU_AIRCON1_BIT_MARK k.FUJITSU_AIRCON1_ZERO_SPACE k.FUJITSU_AIRCON1_ONE_SPACE) ++
      [IRCall.mark k.FUJITSU_AIRCON1_BIT_MARK, IRCall.space 0]) := by
  rw [sendFujitsuMsg_eq]
  simp [List.range_succ]

/-- A filled template has 16 bytes and so differs from the 7-byte `OFF_msg`. -/
theorem filledTemplate_ne_OFF_msg (operatingMode fanSpeed temperature swingV swingH ecoMode : Nat) :
    filledTemplate operatingMode fanSpeed temperature swingV swingH ecoMode ≠ OFF_msg := by
  intro h
  have hl := congrArg List.length h
  rw [filledTemplate_length] at hl
  revert hl; decide

/-- The temperature byte for the temperatures 16..30: no bit is lost in the store. -/
theorem temperatureByte_exact (T : Nat) (h1 : 16 ≤ T) (h2 : T ≤ 30) :
    Int.lor (((T : Int) - 16) <<< (4 : Int)) 0x01 = ((temperatureByte T : Nat) : Int) ∧
    temperatureByte T = 16 * (T - 16) + 1 := by
  interval_cases T <;> decide

/-! ## The claims on the emitter, the auxiliary frames and the frame layout -/

/-- C11: for a message `msg` of `msgSize` bytes, `sendFujitsuMsg` adds to the call log
exactly `msgSize + 5` calls: `setFrequency(40)`, `mark(HDR_MARK)`, `space(HDR_SPACE)`, one
`sendIRByte(msg[i], BIT_MARK, ZERO_SPACE, ONE_SPACE)` per byte in index order,
`mark(BIT_MARK)`, `space(0)`. -/
theorem sendFujitsuMsg_call_sequence (k : Consts) (IR : List IRCall) (msgSize : Nat)
    (msg : List Nat) (hlen : msg.length = msgSize) :
    sendFujitsuMsg k IR msgSize msg =
      IR ++ [IRCall.setFrequency 40, IRCall.mark k.FUJITSU_AIRCON1_HDR_MARK,
        IRCall.space k.FUJITSU_AIRCON1_HDR_SPACE] ++
      msg.map (fun b => IRCall.sendIRByte b k.FUJITSU_AIRCON1_BIT_MARK
        k.FUJITSU_AIRCON1_ZERO_SPACE k.FUJITSU_AIRCON1_ONE_SPACE) ++
      [IRCall.mark k.FUJITSU_AIRCON1_BIT_MARK, IRCall.space 0] ∧
    (sendFujitsuMsg k IR msgSize msg).length = IR.length + (msgSize + 5) := by
  subst hlen
  rw [sendFujitsuMsg_eq, map_range_getD (fun b => IRCall.sendIRByte b
    k.FUJITSU_AIRCON1_BIT_MARK k.FUJITSU_AIRCON1_ZERO_SPACE k.FUJITSU_AIRCON1_ONE_SPACE)]
  refine ⟨rfl, ?_⟩
  simp only [List.length_append, List.length_map, List.length_cons, List.length_nil]
  omega

/-- C11 at the sample constants on a two-byte message and an empty call log. -/
theorem sendFujitsuMsg_call_sequence_witness :
    sendFujitsuMsg sampleConsts [] 2 [0xA5, 0x5A] =
      [IRCall.setFrequency 40, IRCall.mark 3250, IRCall.space 1550,
        IRCall.sendIRByte 0xA5 400 390 1200, IRCall.sendIRByte 0x5A 400 390 1200,
        IRCall.mark 400, IRCall.space 0] ∧
    (sendFujitsuMsg sampleConsts [] 2 [0xA5, 0x5A]).length = 2 + 5 :=
  have h := sendFujitsuMsg_call_sequence sampleConsts [] 2 [0xA5, 0x5A] rfl
  ⟨h.1, h.2.trans (by decide)⟩

/-- C12: `sendFujitsuFilterClean`, `sendFujitsuSuperQuiet` and `sendFujitsuTestRun` issue
the same emitter calls, those of `sendFujitsuMsg` on `14 63 00 10 10 02 FD`. -/
theorem auxiliary_senders_identical (k : Consts) (IR : List IRCall) :
    sendFujitsuFilterClean k IR = sendFujitsuSuperQuiet k IR ∧
    sendFujitsuSuperQuiet k IR = sendFujitsuTestRun k IR ∧
    sendFujitsuFilterClean k IR = sendFujitsuTestRun k IR ∧
    sendFujitsuFilterClean k IR =
      sendFujitsuMsg k IR 7 [0x14, 0x63, 0x00, 0x10, 0x10, 0x02, 0xFD] :=
  ⟨rfl, rfl, rfl, rfl⟩

/-- C15: for byte-sized codes and an OFF marker apart from the mode codes, the frame of
every power-ON command is the baseline `14 63 00 10 10 FE 09 30`, then the temperature
byte, the operating mode, the fan/swing byte, `00 00 00`, the eco code and the checksum:
bytes 0..7 and 11..13 are the same for every command. -/
theorem send_on_frame_layout (k : Consts) (hb : k.codesAreBytes) (ha : k.offMarkerApart)
    (powerModeCmd operatingModeCmd fanSpeedCmd temperatureCmd swingVCmd swingHCmd : Nat)
    (ecoModeCmd : Bool) (hp : powerModeCmd ≠ k.POWER_OFF) :
    sendFrame k powerModeCmd operatingModeCmd fanSpeedCmd temperatureCmd swingVCmd
        swingHCmd ecoModeCmd =
      [0x14, 0x63, 0x00, 0x10, 0x10, 0xFE, 0x09, 0x30,
        temperatureByte (normalize k powerModeCmd operatingModeCmd fanSpeedCmd
          temperatureCmd swingVCmd swingHCmd ecoModeCmd).temperature,
        (normalize k powerModeCmd operatingModeCmd fanSpeedCmd temperatureCmd swingVCmd
          swingHCmd ecoModeCmd).operatingMode,
        toByte
          ((normalize k powerModeCmd operatingModeCmd fanSpeedCmd temperatureCmd swingVCmd
            swingHCmd ecoModeCmd).fanSpeed +
          (normalize k powerModeCmd operatingModeCmd fanSpeedCmd temperatureCmd swingVCmd
            swingHCmd ecoModeCmd).swingV +
          (normalize k powerModeCmd operatingModeCmd fanSpeedCmd temperatureCmd swingVCmd
            swingHCmd ecoModeCmd).swingH),
        0x00, 0x00, 0x00,
        (normalize k powerModeCmd operatingModeCmd fanSpeedCmd temperatureCmd swingVCmd
          swingHCmd ecoModeCmd).ecoMode,
        (sendFrame k powerModeCmd operatingModeCmd fanSpeedCmd temperatureCmd swingVCmd
          swingHCmd ecoModeCmd).getD 15 0] ∧
    (sendFrame k powerModeCmd operatingModeCmd fanSpeedCmd temperatureCmd swingVCmd
        swingHCmd ecoModeCmd).take 8 = [0x14, 0x63, 0x00, 0x10, 0x10, 0xFE, 0x09, 0x30] ∧
    (sendFrame k powerModeCmd operatingModeCmd fanSpeedCmd temperatureCmd swingVCmd
        swingHCmd ecoModeCmd).getD 11 1 = 0x00 ∧
    (sendFrame k powerModeCmd operatingModeCmd fanSpeedCmd temperatureCmd swingVCmd
        swingHCmd ecoModeCmd).getD 12 1 = 0x00 ∧
    (sendFrame k powerModeCmd operatingModeCmd fanSpeedCmd temperatureCmd swingVCmd
        swingHCmd ecoModeCmd).getD 13 1 = 0x00 := by
  rw [sendFrame_on k hb ha _ _ _ _ _ _ _ hp, filledTemplate_eq]
  exact ⟨rfl, rfl, rfl, rfl, rfl⟩

/-- C15 at the sample constants: power ON, DRY, fan 4, 30 degrees, vertical swing, eco. -/
theorem send_on_frame_layout_witness :
    (sendFrame sampleConsts 1 4 4 30 1 0 true).take 8 =
      [0x14, 0x63, 0x00, 0x10, 0x10, 0xFE, 0x09, 0x30] ∧
    ((sendFrame sampleConsts 1 4 4 30 1 0 true).drop 8).take 7 =
      [0xE1, 0x02, 0x11, 0x00, 0x00, 0x00, 0x20] :=
  ⟨(send_on_frame_layout sampleConsts (by decide) (by decide) 1 4 4 30 1 0 true
    (by decide)).2.1, by decide⟩

/-- C16: for byte-sized codes and an OFF marker apart from the mode codes, the
normalised operating mode of every power-ON command, whatever its operating mode command,
differs from `FUJITSU_AIRCON1_MODE_OFF`; `send` hands a 16-byte frame, never `OFF_msg`,
to `sendFujitsuMsg`. -/
theorem send_power_on_never_off_frame (k : Consts) (hb : k.codesAreBytes)
    (ha : k.offMarkerApart) (IR : List IRCall)
    (powerModeCmd operatingModeCmd fanSpeedCmd temperatureCmd swingVCmd swingHCmd : Nat)
    (ecoModeCmd : Bool) (hp : powerModeCmd ≠ k.POWER_OFF) :
    (normalize k powerModeCmd operatingModeCmd fanSpeedCmd temperatureCmd swingVCmd
      swingHCmd ecoModeCmd).operatingMode ≠ k.FUJITSU_AIRCON1_MODE_OFF ∧
    (sendFrame k powerModeCmd operatingModeCmd fanSpeedCmd temperatureCmd swingVCmd
      swingHCmd ecoModeCmd).length = 16 ∧
    sendFrame k powerModeCmd operatingModeCmd fanSpeedCmd temperatureCmd swingVCmd
      swingHCmd ecoModeCmd ≠ OFF_msg ∧
    send k IR powerModeCmd operatingModeCmd fanSpeedCmd temperatureCmd swingVCmd
        swingHCmd ecoModeCmd =
      sendFujitsuMsg k IR 16
        (sendFrame k powerModeCmd operatingModeCmd fanSpeedCmd temperatureCmd swingVCmd
          swingHCmd ecoModeCmd) := by
  have hl : (sendFrame k powerModeCmd operatingModeCmd fanSpeedCmd temperatureCmd swingVCmd
      swingHCmd ecoModeCmd).length = 16 := by
    rw [sendFrame_on k hb ha _ _ _ _ _ _ _ hp]; exact filledTemplate_length _ _ _ _ _ _
  refine ⟨normalize_operatingMode_ne_off k hb ha _ _ _ _ _ _ _ hp, hl, ?_, ?_⟩
  · rw [sendFrame_on k hb ha _ _ _ _ _ _ _ hp]; exact filledTemplate_ne_OFF_msg _ _ _ _ _ _
  · rw [send_eq_sendFujitsuMsg, hl]

/-- C16 at the sample constants: power ON with the unrecognised mode command 200. -/
theorem send_power_on_never_off_frame_witness :
    (normalize sampleConsts 1 200 0 23 0 0 false).operatingMode ≠
      sampleConsts.FUJITSU_AIRCON1_MODE_OFF ∧
    (sendFrame sampleConsts 1 200 0 23 0 0 false).length = 16 :=
  have h := send_power_on_never_off_frame sampleConsts (by decide) (by decide) []
    1 200 0 23 0 0 false (by decide)
  ⟨h.1, h.2.1⟩

/-- C17: for a byte-sized OFF marker, `sendFujitsuFilterClean`, `sendFujitsuSuperQuiet`
and `sendFujitsuTestRun` each issue the emitter calls of `send` with `POWER_OFF`, on the
frame `14 63 00 10 10 02 FD`; `sendFujitsuHiPower` issues different calls. -/
theorem auxiliary_senders_vs_power_off (k : Consts) (hoff : k.FUJITSU_AIRCON1_MODE_OFF < 256)
    (IR : List IRCall)
    (operatingModeCmd fanSpeedCmd temperatureCmd swingVCmd swingHCmd : Nat)
    (ecoModeCmd : Bool) :
    sendFrame k k.POWER_OFF operatingModeCmd fanSpeedCmd temperatureCmd swingVCmd
      swingHCmd ecoModeCmd = [0x14, 0x63, 0x00, 0x10, 0x10, 0x02, 0xFD] ∧
    sendFujitsuFilterClean k IR =
      send k IR k.POWER_OFF operatingModeCmd fanSpeedCmd temperatureCmd swingVCmd
        swingHCmd ecoModeCmd ∧
    sendFujitsuSuperQuiet k IR =
      send k IR k.POWER_OFF operatingModeCmd fanSpeedCmd temperatureCmd swingVCmd
        swingHCmd ecoModeCmd ∧
    sendFujitsuTestRun k IR =
      send k IR k.POWER_OFF operatingModeCmd fanSpeedCmd temperatureCmd swingVCmd
        swingHCmd ecoModeCmd ∧
    sendFujitsuHiPower k IR ≠
      send k IR k.POWER_OFF operatingModeCmd fanSpeedCmd temperatureCmd swingVCmd
        swingHCmd ecoModeCmd := by
  have hs : send k IR k.POWER_OFF operatingModeCmd fanSpeedCmd temperatureCmd swingVCmd
      swingHCmd ecoModeCmd =
      sendFujitsuMsg k IR 7 [0x14, 0x63, 0x00, 0x10, 0x10, 0x02, 0xFD] := by
    rw [send_eq_sendFujitsuMsg, sendFrame_off k hoff]; rfl
  rw [hs, sendFrame_off k hoff]
  refine ⟨rfl, rfl, rfl, rfl, fun h => ?_⟩
  simp only [sendFujitsuHiPower, List.length_cons, List.length_nil] at h
  rw [sendFujitsuMsg_seven, sendFujitsuMsg_seven] at h
  simp at h

/-- C17 at the sample constants, with a power-OFF command that carries COOL, fan 2,
25 degrees and both swings. -/
theorem auxiliary_senders_vs_power_off_witness :
    sampleConsts.FUJITSU_AIRCON1_MODE_OFF < 256 ∧
    sendFujitsuFilterClean sampleConsts [] = send sampleConsts [] 0 3 2 25 1 1 false ∧
    sendFujitsuHiPower sampleConsts [] ≠ send sampleConsts [] 0 3 2 25 1 1 false :=
  have h := auxiliary_senders_vs_power_off sampleConsts (by decide) [] 3 2 25 1 1 false
  ⟨by decide, h.2.1, h.2.2.2.2⟩

/-- C18: for every temperature command the temperature that `send` passes to
`sendFujitsu` lies in 16..30, so `temperature - 16` lies in 0..14, the `int` value of
`(temperature - 16) << 4 | 0x01` is the stored byte with no bit lost, and byte 8 is
`16 * (temperature - 16) + 1`, one of `0x01, 0x11, ..., 0xE1`. -/
theorem send_temperature_fits_byte (k : Consts)
    (powerModeCmd operatingModeCmd fanSpeedCmd temperatureCmd swingVCmd swingHCmd : Nat)
    (ecoModeCmd : Bool) :
    16 ≤ (normalize k powerModeCmd operatingModeCmd fanSpeedCmd temperatureCmd swingVCmd
      swingHCmd ecoModeCmd).temperature ∧
    (normalize k powerModeCmd operatingModeCmd fanSpeedCmd temperatureCmd swingVCmd
      swingHCmd ecoModeCmd).temperature ≤ 30 ∧
    (0 : Int) ≤ ((normalize k powerModeCmd operatingModeCmd fanSpeedCmd temperatureCmd
      swingVCmd swingHCmd ecoModeCmd).temperature : Int) - 16 ∧
    ((normalize k powerModeCmd operatingModeCmd fanSpeedCmd temperatureCmd
      swingVCmd swingHCmd ecoModeCmd).temperature : Int) - 16 ≤ 14 ∧
    Int.lor ((((normalize k powerModeCmd operatingModeCmd fanSpeedCmd temperatureCmd
        swingVCmd swingHCmd ecoModeCmd).temperature : Int) - 16) <<< (4 : Int)) 0x01 =
      ((temperatureByte (normalize k powerModeCmd operatingModeCmd fanSpeedCmd
        temperatureCmd swingVCmd swingHCmd ecoModeCmd).temperature : Nat) : Int) ∧
    temperatureByte (normalize k powerModeCmd operatingModeCmd fanSpeedCmd temperatureCmd
        swingVCmd swingHCmd ecoModeCmd).temperature =
      16 * ((normalize k powerModeCmd operatingModeCmd fanSpeedCmd temperatureCmd
        swingVCmd swingHCmd ecoModeCmd).temperature - 16) + 1 ∧
    temperatureByte (normalize k powerModeCmd operatingModeCmd fanSpeedCmd temperatureCmd
        swingVCmd swingHCmd ecoModeCmd).temperature ≤ 0xE1 := by
  have hr : 16 ≤ (normalize k powerModeCmd operatingModeCmd fanSpeedCmd temperatureCmd
      swingVCmd swingHCmd ecoModeCmd).temperature ∧
      (normalize k powerModeCmd operatingModeCmd fanSpeedCmd temperatureCmd swingVCmd
        swingHCmd ecoModeCmd).temperature ≤ 30 := by
    simp only [normalize]
    split_ifs <;> omega
  obtain ⟨h1, h2⟩ := hr
  obtain ⟨e1, e2⟩ := temperatureByte_exact _ h1 h2
  refine ⟨h1, h2, by omega, by omega, e1, e2, ?_⟩
  rw [e2]; omega

end FujitsuHeatpumpIR

namespace MyHwLinuxGeneric

/-! ## Lemmas on the storage -/

/-- The fill loop up to index `n` keeps the length of the array. -/
theorem fill_length (v : Nat) (n : Nat) (cfg : List Nat) :
    ((List.range n).foldl (fun _config i => _config.set i v) cfg).length = cfg.length := by
  induction n with
  | zero => simp
  | succ n ih => simp [List.range_succ, List.foldl_append, ih]

/-- The fill loop up to index `n` sets the first `n` bytes and keeps the others. -/
theorem fill_get (v : Nat) (n : Nat) (cfg : List Nat) (i : Nat) :
    ((List.range n).foldl (fun _config i => _config.set i v) cfg)[i]? =
      if i < n then (cfg[i]?).map (fun _ => v) else cfg[i]? := by
  induction n with
  | zero => simp
  | succ n ih =>
    rw [List.range_succ, List.foldl_append]
    simp only [List.foldl_cons, List.foldl_nil, List.getElem?_set, fill_length, ih]
    by_cases h1 : n = i
    · subst h1
      by_cases h2 : n < cfg.length
      · simp [h2, List.getElem?_eq_getElem h2]
      · simp [h2, List.getElem?_eq_none (Nat.le_of_not_lt h2)]
    · by_cases h3 : i < n
      · have h4 : i < n + 1 := by omega
        simp [h1, h3, h4]
      · have h4 : ¬ i < n + 1 := by omega
        simp [h1, h3, h4]

/-- Filling all `n` bytes of an array of `n` zero bytes gives `n` bytes `v`. -/
theorem fill_replicate (v n : Nat) :
    (List.range n).foldl (fun _config i => _config.set i v) (List.replicate n 0) =
      List.replicate n v := by
  apply List.ext_getElem?
  intro i
  rw [fill_get]
  by_cases h : i < n
  · simp [h, List.getElem?_replicate]
  · simp [h, List.getElem?_replicate]

/-- After the fill loop of `hwInit` every byte of `_config` is `0xFF`. -/
theorem hwInit_fill_eq : hwInit_fill = List.replicate _length 0xFF :=
  fill_replicate 0xFF _length

/-- After the fill loop of `hwInit` the array `_config` has its 1024 bytes. -/
theorem hwInit_fill_length : hwInit_fill.length = 1024 := by
  rw [hwInit_fill_eq, List.length_replicate]; rfl

/-- The range test passes for a non-empty range that ends within the region, when the
word holds 1024. -/
theorem rangeTest_in_range (w offs length : Nat) (hw : 11 ≤ w) (hl : 0 < length)
    (ho : offs + length ≤ 1024) : rangeTest w offs length = true := by
  have h2 : 2 ^ 11 ≤ 2 ^ w := Nat.pow_le_pow_right (by decide) hw
  have h3 : (offs + length) % 2 ^ w = offs + length :=
    Nat.mod_eq_of_lt (by norm_num at h2; omega)
  simp only [rangeTest, h3, _length]
  simp
  omega

/-- A block read within the region copies `length` bytes from `offs` on. -/
theorem hwReadConfigBlock_in_range (w : Nat) (_config buf : List Nat) (offs length : Nat)
    (hw : 11 ≤ w) (hc : _config.length = 1024) (hl : 0 < length)
    (ho : offs + length ≤ 1024) (hb : length ≤ buf.length) :
    hwReadConfigBlock w _config buf offs length =
      some ((_config.drop offs).take length ++ buf.drop length) := by
  have hm : offs + length ≤ _config.length ∧ 0 + length ≤ buf.length := by
    rw [hc]; exact ⟨ho, by omega⟩
  simp only [hwReadConfigBlock, rangeTest_in_range w offs length hw hl ho, memcpy, if_pos hm]
  simp

/-- A block write within the region replaces `length` bytes from `offs` on. -/
theorem hwWriteConfigBlock_in_range (w : Nat) (_config buf : List Nat) (offs length : Nat)
    (hw : 11 ≤ w) (hc : _config.length = 1024) (hl : 0 < length)
    (ho : offs + length ≤ 1024) (hb : length ≤ buf.length) :
    hwWriteConfigBlock w _config buf offs length =
      some (_config.take offs ++ buf.take length ++ _config.drop (offs + length)) := by
  have hm : 0 + length ≤ buf.length ∧ offs + length ≤ _config.length := by
    rw [hc]; exact ⟨by omega, ho⟩
  simp only [hwWriteConfigBlock, rangeTest_in_range w offs length hw hl ho, memcpy, if_pos hm]
  simp

/-- The pointer made from an address within the region is the address itself. -/
theorem ptrOfInt_in_range (w : Nat) (adr : Int) (hw : 11 ≤ w) (h0 : 0 ≤ adr)
    (h1 : adr ≤ 1023) : ptrOfInt w adr = adr.toNat := by
  have h2 : 2 ^ 11 ≤ 2 ^ w := Nat.pow_le_pow_right (by decide) hw
  have h3 : (2 : Int) ^ 11 ≤ 2 ^ w := by exact_mod_cast h2
  unfold ptrOfInt
  rw [Int.emod_eq_of_lt h0 (by norm_num at h3; omega)]

/-- A byte read within the region returns the stored byte. -/
theorem hwReadConfig_in_range (w : Nat) (_config : List Nat) (adr : Int) (hw : 11 ≤ w)
    (hc : _config.length = 1024) (h0 : 0 ≤ adr) (h1 : adr ≤ 1023) :
    hwReadConfig w _config adr = some (_config.getD adr.toNat 0) := by
  have ha : adr.toNat + 1 ≤ 1024 := by omega
  have hlt : adr.toNat < _config.length := by omega
  rw [hwReadConfig, ptrOfInt_in_range w adr hw h0 h1,
    hwReadConfigBlock_in_range w _config [0xFF] adr.toNat 1 hw hc (by decide) ha (by simp)]
  simp [List.take_one_drop_eq_of_lt_length hlt, List.getD_eq_getElem?_getD,
    List.getElem?_eq_getElem hlt]

/-- The bytes of a block written within the region, in closed form: unchanged outside
the range, the buffer inside. -/
theorem write_block_get (_config buf : List Nat) (offs length : Nat)
    (ho : offs + length ≤ _config.length) (hb : length ≤ buf.length) (i : Nat) :
    (_config.take offs ++ buf.take length ++ _config.drop (offs + length))[i]? =
      if offs ≤ i ∧ i < offs + length then buf[i - offs]? else _config[i]? := by
  have h1 : (_config.take offs).length = offs := by
    rw [List.length_take]; omega
  have h2 : (buf.take length).length = length := by
    rw [List.length_take]; omega
  by_cases ha : i < offs
  · have hn : ¬ (offs ≤ i ∧ i < offs + length) := by omega
    rw [if_neg hn, List.append_assoc, List.getElem?_append_left (by omega),
      List.getElem?_take_of_lt ha]
  · by_cases hb2 : i < offs + length
    · have hp : offs ≤ i ∧ i < offs + length := ⟨by omega, hb2⟩
      rw [if_pos hp, List.append_assoc, List.getElem?_append_right (by omega), h1,
        List.getElem?_append_left (by omega), List.getElem?_take_of_lt (by omega)]
    · have hn : ¬ (offs ≤ i ∧ i < offs + length) := by omega
      rw [if_neg hn, List.getElem?_append_right (by simp only [List.length_append]; omega),
        List.length_append, h1, h2, List.getElem?_drop]
      congr 1
      omega

/-- Storing the byte that an index already holds changes nothing. -/
theorem set_same (l : List Nat) (n : Nat) (h : n < l.length) : l.set n l[n] = l := by
  apply List.ext_getElem?
  intro i
  rw [List.getElem?_set]
  by_cases hi : n = i
  · subst hi
    simp [h, List.getElem?_eq_getElem h]
  · simp [hi]

/-! ## The claims on the storage -/

/-- C13: for a word that holds 1024 and a region of 1024 bytes, writing a buffer `buf`
of `len > 0` bytes at `offs` with `offs + len <= 1024` and then reading `len` bytes at
`offs` fills the first `len` bytes of the read buffer with `buf`; and after the fill loop
of `hwInit` the function `hwReadConfig` returns `0xFF` at every address 0..1023. -/
theorem storage_round_trip (w : Nat) (hw : 11 ≤ w) (_config buf out : List Nat)
    (offs len : Nat) (hc : _config.length = 1024) (hl : 0 < len) (ho : offs + len ≤ 1024)
    (hb : buf.length = len) (hout : len ≤ out.length) :
    (∃ written : List Nat,
      hwWriteConfigBlock w _config buf offs len = some written ∧
      hwReadConfigBlock w written out offs len = some (buf ++ out.drop len)) ∧
    (∀ adr : Int, 0 ≤ adr → adr ≤ 1023 → hwReadConfig w hwInit_fill adr = some 0xFF) := by
  constructor
  · refine ⟨_, hwWriteConfigBlock_in_range w _config buf offs len hw hc hl ho (by omega), ?_⟩
    have h1 : (_config.take offs).length = offs := by
      rw [List.length_take]; omega
    have h2 : buf.take len = buf := by
      rw [← hb]; exact List.take_length buf
    have hlen : (_config.take offs ++ buf.take len ++ _config.drop (offs + len)).length
        = 1024 := by
      simp only [List.length_append, List.length_take, List.length_drop]
      omega
    rw [hwReadConfigBlock_in_range w _ out offs len hw hlen hl ho hout, h2,
      List.append_assoc, List.drop_left' h1, List.take_left' hb]
  · intro adr h0 h1
    rw [hwReadConfig_in_range w hwInit_fill adr hw hwInit_fill_length h0 h1, hwInit_fill_eq]
    have h2 : adr.toNat < _length := by
      have : adr.toNat < 1024 := by omega
      exact this
    simp [List.getD_eq_getElem?_getD, List.getElem?_replicate, h2]

/-- C13 with 64-bit words: three bytes written at offset 2 of a region of zero bytes are
read back, and address 1023 holds `0xFF` after the fill. -/
theorem storage_round_trip_witness :
    (∃ written : List Nat,
      hwWriteConfigBlock 64 (List.replicate 1024 0) [7, 8, 9] 2 3 = some written ∧
      hwReadConfigBlock 64 written [0, 0, 0] 2 3 = some ([7, 8, 9] ++ [])) ∧
    hwReadConfig 64 hwInit_fill 1023 = some 0xFF :=
  have h := storage_round_trip 64 (by decide) (List.replicate 1024 0) [7, 8, 9] [0, 0, 0] 2 3
    (List.length_replicate 1024 0) (by decide) (by decide) rfl (by decide)
  ⟨h.1, h.2 1023 (by decide) (by decide)⟩

/-- C14 fails at `hwReadConfig(-1)`: the pointer made from `-1` is the largest word, the
sum `offs + 1` wraps to 0, so the range test passes although index `offs` is not below
1024, and the `memcpy` reads outside `_config` (no `0xFF` is returned); the call
`hwWriteConfig(-1, 0)` fares the same. With 64-bit and with 32-bit words. -/
theorem hwReadConfig_minus_one_leaves_region :
    (ptrOfInt 64 (-1) = 2 ^ 64 - 1 ∧ rangeTest 64 (ptrOfInt 64 (-1)) 1 = true ∧
      ¬ (ptrOfInt 64 (-1) < 1024) ∧
      hwReadConfig 64 hwInit_fill (-1) = none ∧
      hwReadConfig 64 hwInit_fill (-1) ≠ some 0xFF ∧
      hwWriteConfig 64 hwInit_fill (-1) 0 = none) ∧
    (ptrOfInt 32 (-1) = 2 ^ 32 - 1 ∧ rangeTest 32 (ptrOfInt 32 (-1)) 1 = true ∧
      ¬ (ptrOfInt 32 (-1) < 1024) ∧
      hwReadConfig 32 hwInit_fill (-1) = none ∧
      hwReadConfig 32 hwInit_fill (-1) ≠ some 0xFF ∧
      hwWriteConfig 32 hwInit_fill (-1) 0 = none) := by
  have p64 : ptrOfInt 64 (-1) = 2 ^ 64 - 1 := by decide
  have p32 : ptrOfInt 32 (-1) = 2 ^ 32 - 1 := by decide
  have r64 : rangeTest 64 (2 ^ 64 - 1) 1 = true := by decide
  have r32 : rangeTest 32 (2 ^ 32 - 1) 1 = true := by decide
  have m64 : memcpy [0xFF] 0 hwInit_fill (2 ^ 64 - 1) 1 = none := by
    simp [memcpy, hwInit_fill_length]
  have m32 : memcpy [0xFF] 0 hwInit_fill (2 ^ 32 - 1) 1 = none := by
    simp [memcpy, hwInit_fill_length]
  have e64 : hwReadConfig 64 hwInit_fill (-1) = none := by
    simp only [hwReadConfig, hwReadConfigBlock, p64, r64, if_true, m64, Option.map_none']
  have e32 : hwReadConfig 32 hwInit_fill (-1) = none := by
    simp only [hwReadConfig, hwReadConfigBlock, p32, r32, if_true, m32, Option.map_none']
  refine ⟨⟨p64, p64 ▸ r64, ?_, e64, ?_, ?_⟩, ⟨p32, p32 ▸ r32, ?_, e32, ?_, ?_⟩⟩
  · rw [p64]; decide
  · rw [e64]; exact Option.noConfusion
  · rw [hwWriteConfig, e64]
  · rw [p32]; decide
  · rw [e32]; exact Option.noConfusion
  · rw [hwWriteConfig, e32]

/-- C19: for a word that holds 1024 and a region of 1024 bytes, a block write of
`len > 0` bytes at `offs` with `offs + len <= 1024` keeps the size of the region and every
byte at an index outside `offs .. offs+len-1`; and `hwWriteConfig(adr, v)` for `adr` in
0..1023 leaves the region with index `adr` set to `v`, whether or not the stored byte
already was `v`. -/
theorem write_changes_only_addressed_range (w : Nat) (hw : 11 ≤ w) (_config buf : List Nat)
    (offs len : Nat) (hc : _config.length = 1024) (hl : 0 < len) (ho : offs + len ≤ 1024)
    (hb : len ≤ buf.length) :
    (∃ written : List Nat,
      hwWriteConfigBlock w _config buf offs len = some written ∧
      written.length = 1024 ∧
      (∀ i : Nat, i < offs ∨ offs + len ≤ i → written[i]? = _config[i]?) ∧
      (∀ j : Nat, j < len → written[offs + j]? = buf[j]?)) ∧
    (∀ (adr : Int) (v : Nat), 0 ≤ adr → adr ≤ 1023 →
      hwWriteConfig w _config adr v = some (_config.set adr.toNat v)) := by
  constructor
  · refine ⟨_, hwWriteConfigBlock_in_range w _config buf offs len hw hc hl ho hb, ?_, ?_, ?_⟩
    · simp only [List.length_append, List.length_take, List.length_drop]
      omega
    · intro i hi
      have hn : ¬ (offs ≤ i ∧ i < offs + len) := by omega
      rw [write_block_get _config buf offs len (by omega) hb, if_neg hn]
    · intro j hj
      have hp : offs ≤ offs + j ∧ offs + j < offs + len := by omega
      rw [write_block_get _config buf offs len (by omega) hb, if_pos hp,
        Nat.add_sub_cancel_left]
  · intro adr v h0 h1
    have hlt : adr.toNat < _config.length := by omega
    have ha : adr.toNat + 1 ≤ 1024 := by omega
    rw [hwWriteConfig, hwReadConfig_in_range w _config adr hw hc h0 h1]
    simp only
    by_cases hv : _config.getD adr.toNat 0 = v
    · have hget : _config[adr.toNat] = v := by
        rw [List.getD_eq_getElem?_getD, List.getElem?_eq_getElem hlt] at hv
        exact hv
      rw [if_neg (by simpa using hv), ← hget, set_same _config adr.toNat hlt]
    · rw [if_pos hv, ptrOfInt_in_range w adr hw h0 h1,
        hwWriteConfigBlock_in_range w _config [v] adr.toNat 1 hw hc (by decide) ha (by simp),
        List.set_eq_take_cons_drop v hlt]
      simp

/-- C19 with 64-bit words on a region of zero bytes: two bytes written at offset 1022
keep byte 1021, and `hwWriteConfig(5, 0)` on a byte that already is 0 changes nothing. -/
theorem write_changes_only_addressed_range_witness :
    (∃ written : List Nat,
      hwWriteConfigBlock 64 (List.replicate 1024 0) [7, 8] 1022 2 = some written ∧
      written[1021]? = (List.replicate 1024 0)[1021]?) ∧
    hwWriteConfig 64 (List.replicate 1024 0) 5 0 = some ((List.replicate 1024 0).set 5 0) :=
  have h := write_changes_only_addressed_range 64 (by decide) (List.replicate 1024 0) [7, 8]
    1022 2 (List.length_replicate 1024 0) (by decide) (by decide) (by decide)
  ⟨h.1.elim fun written hw => ⟨written, hw.1, hw.2.2.1 1021 (Or.inl (by decide))⟩,
    h.2 5 0 (by decide) (by decide)⟩

end MyHwLinuxGeneric
